import Mathlib

/-!
Shallow embedding of the SkSL typed-IR core (type model, symbol tables, and the
binary rehydrator) together with proofs about its documented behaviour.

The definitions below are translated from the C++ sources:
  - `Type::coercionCost`, `Type::toCompound`, `Type::clone`,
    `Type::coerceExpression`, `Type::checkForOutOfRangeLiteral` (SkSLType.cpp),
  - `Rehydrator` (SkSLRehydrator.cpp).
Mutable C++ state (symbol tables, the rehydrator cursor and registry) is
threaded explicitly; fatal assertions (`SkASSERT`, `SK_ABORT`, `SkDEBUGFAIL`)
are modelled as `Option.none` results.  Helpers whose bodies live in headers
that are not part of the excerpt (accessors, `CoercionCost`, the builtin type
set, the byte-reading primitives, the symbol-registry primitives) are
reconstructed from the specification and are marked as such in their doc
comments.
-/

namespace SkSL

/-- Number kind of a scalar type: signed/unsigned integer, floating point,
boolean, or non-numeric. -/
inductive NumberKind where
  | signed
  | unsigned
  | floatKind
  | boolean
  | nonnumeric
deriving DecidableEq

/-- Modelled from the spec: `CoercionCost` is a ranked result of comparing a
source and destination type for implicit conversion, one of `Free`,
`Normal(n)`, `Narrowing(n)` or `Impossible`, where `Normal`/`Narrowing` carry
a tie-breaking magnitude. -/
inductive CoercionCost where
  | free
  | normal (cost : Nat)
  | narrowing (cost : Nat)
  | impossible
deriving DecidableEq

/-- Modelled from the spec: `CoercionCost::isPossible` under the active
narrowing-conversion policy — `Free` and `Normal` conversions are always
possible, `Narrowing` only when narrowing conversions are allowed, and
`Impossible` never. -/
def CoercionCost.isPossible : CoercionCost → Bool → Bool
  | CoercionCost.free, _ => true
  | CoercionCost.normal _, _ => true
  | CoercionCost.narrowing _, allowNarrowing => allowNarrowing
  | CoercionCost.impossible, _ => false

/-- Layout qualifier data, mirroring the fields decoded by
`Rehydrator::layout` (flags, location, offset, binding, index, set, builtin,
input-attachment index, primitive, max-vertices, invocations, a
conditional-guard string, and a C-type tag).  The defaults model the `Layout`
default constructor from the header. -/
structure Layout where
  flags : Nat := 0
  location : Int := -1
  offset : Int := -1
  binding : Int := -1
  index : Int := -1
  set : Int := -1
  builtin : Int := -1
  inputAttachmentIndex : Int := -1
  primitive : Int := -1
  maxVertices : Int := -1
  invocations : Int := -1
  whenGuard : String := ""
  ctype : Int := 0
deriving DecidableEq

/-- Modifier data: a layout plus a flag word, mirroring `Modifiers`. -/
structure Modifiers where
  layout : Layout := {}
  flags : Int := 0
deriving DecidableEq

/-- A type descriptor: a scalar (with number kind, overload priority, literal
flag, bit width, and an explicit coercible-type list), a vector or matrix over
a component type, an array, a struct with ordered fields (each a
modifiers/name/type triple, mirroring `Type::Field`), an enum, or void.  The
per-kind payloads mirror the constructor arguments used by `MakeArrayType` /
`MakeStructType` / `MakeEnumType` and the scalar constructors. -/
inductive SkType where
  | scalar (name : String) (nk : NumberKind) (priority : Nat) (isLit : Bool) (bits : Nat)
      (coercibles : List SkType)
  | vector (name : String) (component : SkType) (columns : Int)
  | matrix (name : String) (component : SkType) (columns rows : Int)
  | array (name : String) (component : SkType) (count : Int)
  | structT (name : String) (fields : List (Modifiers × String × SkType))
  | enumT (name : String)
  | voidT

/-- Type kinds, mirroring `Type::TypeKind` for the kinds present in the
embedding. -/
inductive TypeKind where
  | kArray
  | kEnum
  | kMatrix
  | kScalar
  | kStruct
  | kVector
  | kVoid
deriving DecidableEq

namespace SkType

/-- Name of a type (mirrors `Type::name()`). -/
def name : SkType → String
  | scalar n _ _ _ _ _ => n
  | vector n _ _ => n
  | matrix n _ _ _ => n
  | array n _ _ => n
  | structT n _ => n
  | enumT n => n
  | voidT => "void"

/-- Display name of a type (mirrors `Type::displayName()`; for the types in
this embedding it is the name). -/
def displayName (t : SkType) : String := t.name

/-- Kind of a type (mirrors `Type::typeKind()`). -/
def typeKind : SkType → TypeKind
  | scalar _ _ _ _ _ _ => TypeKind.kScalar
  | vector _ _ _ => TypeKind.kVector
  | matrix _ _ _ _ => TypeKind.kMatrix
  | array _ _ _ => TypeKind.kArray
  | structT _ _ => TypeKind.kStruct
  | enumT _ => TypeKind.kEnum
  | voidT => TypeKind.kVoid

end SkType

/-- Modelled from the spec: type equality is identity of the described type —
"same singleton, or same name+shape for dynamically created types".  The C++
`Type::operator==` compares type names, every type being uniquely identified
by its name. -/
instance : BEq SkType := ⟨fun a b => a.name == b.name⟩

namespace SkType

/-- Whether the type is a scalar (mirrors `Type::isScalar()`). -/
def isScalar : SkType → Bool
  | scalar _ _ _ _ _ _ => true
  | _ => false

/-- Whether the type is a vector (mirrors `Type::isVector()`). -/
def isVector : SkType → Bool
  | vector _ _ _ => true
  | _ => false

/-- Whether the type is a matrix (mirrors `Type::isMatrix()`). -/
def isMatrix : SkType → Bool
  | matrix _ _ _ _ => true
  | _ => false

/-- Whether the type is an array (mirrors `Type::isArray()`). -/
def isArray : SkType → Bool
  | array _ _ _ => true
  | _ => false

/-- Whether the type is a struct (mirrors `Type::isStruct()`). -/
def isStruct : SkType → Bool
  | structT _ _ => true
  | _ => false

/-- Whether the type is an enum (mirrors `Type::isEnum()`). -/
def isEnum : SkType → Bool
  | enumT _ => true
  | _ => false

/-- Component type: the element type of a vector, matrix, or array, and the
type itself otherwise (mirrors `Type::componentType()`). -/
def componentType : SkType → SkType
  | vector _ c _ => c
  | matrix _ c _ _ => c
  | array _ c _ => c
  | t => t

/-- Column count: vectors and matrices report their column count, arrays their
element count, and all other types 1 (mirrors `Type::columns()`). -/
def columns : SkType → Int
  | vector _ _ c => c
  | matrix _ _ c _ => c
  | array _ _ c => c
  | _ => 1

/-- Row count: matrices report their row count and all other types 1 (mirrors
`Type::rows()`). -/
def rows : SkType → Int
  | matrix _ _ _ r => r
  | _ => 1

/-- Ordered field list of a struct type (mirrors `Type::fields()`). -/
def fields : SkType → List (Modifiers × String × SkType)
  | structT _ fs => fs
  | _ => []

/-- Number kind of a type: the scalar payload for scalars, non-numeric for
everything else (mirrors `Type::numberKind()`). -/
def numberKind : SkType → NumberKind
  | scalar _ nk _ _ _ _ => nk
  | _ => NumberKind.nonnumeric

/-- Whether the type is a signed or unsigned integer scalar (mirrors
`Type::isInteger()`). -/
def isInteger (t : SkType) : Bool :=
  t.numberKind == NumberKind.signed || t.numberKind == NumberKind.unsigned

/-- Whether the type is a floating-point scalar (mirrors `Type::isFloat()`). -/
def isFloat (t : SkType) : Bool :=
  t.numberKind == NumberKind.floatKind

/-- Whether the type is a numeric scalar (mirrors `Type::isNumber()`). -/
def isNumber (t : SkType) : Bool :=
  t.isInteger || t.isFloat

/-- Whether the type is a literal scalar type such as the integer-literal or
float-literal pseudo-type (mirrors `Type::isLiteral()`). -/
def isLiteral : SkType → Bool
  | scalar _ _ _ l _ _ => l
  | _ => false

/-- Overload-resolution priority of a scalar type (mirrors
`Type::priority()`). -/
def priority : SkType → Nat
  | scalar _ _ p _ _ _ => p
  | _ => 0

/-- The per-type authored coercible-type list (mirrors the
`fCoercibleTypes` member; empty for types with no such list). -/
def coercibleTypes : SkType → List SkType
  | scalar _ _ _ _ _ cs => cs
  | _ => []

/-- Modelled from the spec: `Type::isInBuiltinTypes()` lives in the header.
Per the data-model invariant, every non-struct/array/enum type used in the
language is a member of the fixed builtin singleton set, while struct, array
and enum types may be dynamically created. -/
def isInBuiltinTypes (t : SkType) : Bool :=
  !(t.isArray || t.isStruct || t.isEnum)

/-- Bit width of a scalar type (scalar "bit-width bounds" of the data
model). -/
def bitWidth : SkType → Nat
  | scalar _ _ _ _ b _ => b
  | _ => 0

/-- Modelled from the spec: minimum representable value of an integer scalar
with the given signedness and bit width (scalar "bit-width bounds"). -/
def minimumValue (t : SkType) : Int :=
  if t.numberKind == NumberKind.signed then -((2 : Int) ^ (t.bitWidth - 1)) else 0

/-- Modelled from the spec: maximum representable value of an integer scalar
with the given signedness and bit width (scalar "bit-width bounds"). -/
def maximumValue (t : SkType) : Int :=
  if t.numberKind == NumberKind.signed then (2 : Int) ^ (t.bitWidth - 1) - 1
  else (2 : Int) ^ t.bitWidth - 1

/-- `Type::MakeArrayType`: an array type over the given component type. -/
def MakeArrayType (name : String) (componentType : SkType) (columns : Int) : SkType :=
  SkType.array name componentType columns

/-- `Type::MakeStructType`: a struct type with the given ordered fields. -/
def MakeStructType (name : String) (fields : List (Modifiers × String × SkType)) : SkType :=
  SkType.structT name fields

/-- `Type::MakeEnumType`: an enum type with the given name. -/
def MakeEnumType (name : String) : SkType :=
  SkType.enumT name

/-- `Type::kUnsizedArray`, the sentinel element count of an unsized array
(modelled; the constant lives in the header). -/
def kUnsizedArray : Int := -1

end SkType

/-- Tail of `Type::coercionCost` reached when neither the vector/vector nor
the matrix branch applies: the numeric-scalar comparison followed by the
explicit coercible-type list lookup.

```
if (this->isNumber() && other.isNumber()) {
    if (this->isLiteral() && this->isInteger()) return CoercionCost::Free();
    else if (this->numberKind() != other.numberKind())
        return CoercionCost::Impossible();
    else if (other.priority() >= this->priority())
        return CoercionCost::Normal(other.priority() - this->priority());
    else return CoercionCost::Narrowing(this->priority() - other.priority());
}
if (fCoercibleTypes) {
    for (size_t i = 0; i < fCoercibleTypes->size(); i++)
        if (*(*fCoercibleTypes)[i] == other) return CoercionCost::Normal((int) i + 1);
}
return CoercionCost::Impossible();
``` -/
def numberOrCoercibleCost (t other : SkType) : CoercionCost :=
  if t.isNumber && other.isNumber then
    if t.isLiteral && t.isInteger then
      CoercionCost.free
    else if t.numberKind != other.numberKind then
      CoercionCost.impossible
    else if other.priority ≥ t.priority then
      CoercionCost.normal (other.priority - t.priority)
    else
      CoercionCost.narrowing (t.priority - other.priority)
  else
    match (t.coercibleTypes).findIdx? (fun u => u == other) with
    | some i => CoercionCost.normal (i + 1)
    | none => CoercionCost.impossible

/-- `Type::coercionCost`: equality gives `Free`; a vector source compared with
another vector checks column counts and recurses on the component types; a
matrix source checks columns and rows and recurses on the component types;
otherwise the numeric-scalar / coercible-list tail decides.  The guard chain
is specialised per source constructor so that the recursion is structural: a
vector source never satisfies `isMatrix`/`isNumber` and has no coercible
list, hence its fall-through is exactly `numberOrCoercibleCost` (which yields
`Impossible` for it); a matrix source always returns inside the
`this->isMatrix()` branch; every other source skips both compound branches. -/
def coercionCost : SkType → SkType → CoercionCost
  | t@(SkType.vector _ tc _), other =>
    if t == other then
      CoercionCost.free
    else if other.isVector then
      if t.columns == other.columns then
        coercionCost tc other.componentType
      else
        CoercionCost.impossible
    else
      numberOrCoercibleCost t other
  | t@(SkType.matrix _ tc _ _), other =>
    if t == other then
      CoercionCost.free
    else if t.columns == other.columns && t.rows == other.rows then
      coercionCost tc other.componentType
    else
      CoercionCost.impossible
  | t, other =>
    if t == other then
      CoercionCost.free
    else
      numberOrCoercibleCost t other

/-- Modelled from the spec: the builtin scalar `float` singleton.  The
priorities of the builtin scalars are authored constants of the builtin type
set (not part of the excerpt); they rank float above half, matching the
widening order used for overload resolution. -/
def skFloat : SkType := SkType.scalar "float" NumberKind.floatKind 10 false 32 []

/-- Modelled from the spec: the builtin scalar `half` singleton. -/
def skHalf : SkType := SkType.scalar "half" NumberKind.floatKind 9 false 16 []

/-- Modelled from the spec: the float-literal pseudo-type singleton. -/
def skFloatLiteral : SkType :=
  SkType.scalar "$floatLiteral" NumberKind.floatKind 12 true 32 []

/-- Modelled from the spec: the builtin scalar `int` singleton. -/
def skInt : SkType := SkType.scalar "int" NumberKind.signed 7 false 32 []

/-- Modelled from the spec: the integer-literal pseudo-type singleton. -/
def skIntLiteral : SkType :=
  SkType.scalar "$intLiteral" NumberKind.signed 11 true 32 []

/-- Modelled from the spec: the builtin scalar `short` singleton. -/
def skShort : SkType := SkType.scalar "short" NumberKind.signed 6 false 16 []

/-- Modelled from the spec: the builtin scalar `byte` singleton (8-bit signed
integer component type). -/
def skByte : SkType := SkType.scalar "byte" NumberKind.signed 4 false 8 []

/-- Modelled from the spec: the builtin scalar `uint` singleton. -/
def skUInt : SkType := SkType.scalar "uint" NumberKind.unsigned 5 false 32 []

/-- Modelled from the spec: the builtin scalar `ushort` singleton. -/
def skUShort : SkType := SkType.scalar "ushort" NumberKind.unsigned 3 false 16 []

/-- Modelled from the spec: the builtin scalar `bool` singleton. -/
def skBool : SkType := SkType.scalar "bool" NumberKind.boolean 0 false 1 []

/-- Modelled from the spec: the fixed builtin singleton type set (the
`Context::fTypes` table).  Only the members consulted by `Type::toCompound`
are included. -/
structure BuiltinTypes where
  fFloat : SkType := skFloat
  fFloat2 : SkType := SkType.vector "float2" skFloat 2
  fFloat3 : SkType := SkType.vector "float3" skFloat 3
  fFloat4 : SkType := SkType.vector "float4" skFloat 4
  fFloatLiteral : SkType := skFloatLiteral
  fFloat2x2 : SkType := SkType.matrix "float2x2" skFloat 2 2
  fFloat3x2 : SkType := SkType.matrix "float3x2" skFloat 3 2
  fFloat4x2 : SkType := SkType.matrix "float4x2" skFloat 4 2
  fFloat2x3 : SkType := SkType.matrix "float2x3" skFloat 2 3
  fFloat3x3 : SkType := SkType.matrix "float3x3" skFloat 3 3
  fFloat4x3 : SkType := SkType.matrix "float4x3" skFloat 4 3
  fFloat2x4 : SkType := SkType.matrix "float2x4" skFloat 2 4
  fFloat3x4 : SkType := SkType.matrix "float3x4" skFloat 3 4
  fFloat4x4 : SkType := SkType.matrix "float4x4" skFloat 4 4
  fHalf : SkType := skHalf
  fHalf2 : SkType := SkType.vector "half2" skHalf 2
  fHalf3 : SkType := SkType.vector "half3" skHalf 3
  fHalf4 : SkType := SkType.vector "half4" skHalf 4
  fHalf2x2 : SkType := SkType.matrix "half2x2" skHalf 2 2
  fHalf3x2 : SkType := SkType.matrix "half3x2" skHalf 3 2
  fHalf4x2 : SkType := SkType.matrix "half4x2" skHalf 4 2
  fHalf2x3 : SkType := SkType.matrix "half2x3" skHalf 2 3
  fHalf3x3 : SkType := SkType.matrix "half3x3" skHalf 3 3
  fHalf4x3 : SkType := SkType.matrix "half4x3" skHalf 4 3
  fHalf2x4 : SkType := SkType.matrix "half2x4" skHalf 2 4
  fHalf3x4 : SkType := SkType.matrix "half3x4" skHalf 3 4
  fHalf4x4 : SkType := SkType.matrix "half4x4" skHalf 4 4
  fInt : SkType := skInt
  fInt2 : SkType := SkType.vector "int2" skInt 2
  fInt3 : SkType := SkType.vector "int3" skInt 3
  fInt4 : SkType := SkType.vector "int4" skInt 4
  fIntLiteral : SkType := skIntLiteral
  fShort : SkType := skShort
  fShort2 : SkType := SkType.vector "short2" skShort 2
  fShort3 : SkType := SkType.vector "short3" skShort 3
  fShort4 : SkType := SkType.vector "short4" skShort 4
  fUInt : SkType := skUInt
  fUInt2 : SkType := SkType.vector "uint2" skUInt 2
  fUInt3 : SkType := SkType.vector "uint3" skUInt 3
  fUInt4 : SkType := SkType.vector "uint4" skUInt 4
  fUShort : SkType := skUShort
  fUShort2 : SkType := SkType.vector "ushort2" skUShort 2
  fUShort3 : SkType := SkType.vector "ushort3" skUShort 3
  fUShort4 : SkType := SkType.vector "ushort4" skUShort 4
  fBool : SkType := skBool
  fBool2 : SkType := SkType.vector "bool2" skBool 2
  fBool3 : SkType := SkType.vector "bool3" skBool 3
  fBool4 : SkType := SkType.vector "bool4" skBool 4
  fVoid : SkType := SkType.voidT

/-- Program settings consulted by `Type::coerceExpression`
(`Context::fConfig->fSettings`). -/
structure ProgramSettings where
  fAllowNarrowingConversions : Bool

/-- The compiler context: the builtin type set plus the active settings. -/
structure Context where
  fTypes : BuiltinTypes := {}
  fSettings : ProgramSettings := ⟨false⟩

/-- The canonical context holding the builtin singleton set. -/
def skContext : Context := {}

/-- `Type::toCompound`: synthesise the canonical compound singleton with the
given scalar base type and shape.  Fatal paths (`SkASSERT(this->isScalar())`,
the `SK_ABORT` defaults for unsupported shapes, and the trailing
`SkDEBUGFAILF` for a base type with no compound family) are modelled as
`none`. -/
def SkType.toCompound (t : SkType) (context : Context) (columns rows : Int) :
    Option SkType :=
  if !t.isScalar then
    none
  else if columns == 1 && rows == 1 then
    some t
  else if t == context.fTypes.fFloat || t == context.fTypes.fFloatLiteral then
    match rows, columns with
    | 1, 1 => some context.fTypes.fFloat
    | 1, 2 => some context.fTypes.fFloat2
    | 1, 3 => some context.fTypes.fFloat3
    | 1, 4 => some context.fTypes.fFloat4
    | 2, 2 => some context.fTypes.fFloat2x2
    | 2, 3 => some context.fTypes.fFloat3x2
    | 2, 4 => some context.fTypes.fFloat4x2
    | 3, 2 => some context.fTypes.fFloat2x3
    | 3, 3 => some context.fTypes.fFloat3x3
    | 3, 4 => some context.fTypes.fFloat4x3
    | 4, 2 => some context.fTypes.fFloat2x4
    | 4, 3 => some context.fTypes.fFloat3x4
    | 4, 4 => some context.fTypes.fFloat4x4
    | _, _ => none
  else if t == context.fTypes.fHalf then
    match rows, columns with
    | 1, 1 => some context.fTypes.fHalf
    | 1, 2 => some context.fTypes.fHalf2
    | 1, 3 => some context.fTypes.fHalf3
    | 1, 4 => some context.fTypes.fHalf4
    | 2, 2 => some context.fTypes.fHalf2x2
    | 2, 3 => some context.fTypes.fHalf3x2
    | 2, 4 => some context.fTypes.fHalf4x2
    | 3, 2 => some context.fTypes.fHalf2x3
    | 3, 3 => some context.fTypes.fHalf3x3
    | 3, 4 => some context.fTypes.fHalf4x3
    | 4, 2 => some context.fTypes.fHalf2x4
    | 4, 3 => some context.fTypes.fHalf3x4
    | 4, 4 => some context.fTypes.fHalf4x4
    | _, _ => none
  else if t == context.fTypes.fInt || t == context.fTypes.fIntLiteral then
    match rows, columns with
    | 1, 1 => some context.fTypes.fInt
    | 1, 2 => some context.fTypes.fInt2
    | 1, 3 => some context.fTypes.fInt3
    | 1, 4 => some context.fTypes.fInt4
    | _, _ => none
  else if t == context.fTypes.fShort then
    match rows, columns with
    | 1, 1 => some context.fTypes.fShort
    | 1, 2 => some context.fTypes.fShort2
    | 1, 3 => some context.fTypes.fShort3
    | 1, 4 => some context.fTypes.fShort4
    | _, _ => none
  else if t == context.fTypes.fUInt then
    match rows, columns with
    | 1, 1 => some context.fTypes.fUInt
    | 1, 2 => some context.fTypes.fUInt2
    | 1, 3 => some context.fTypes.fUInt3
    | 1, 4 => some context.fTypes.fUInt4
    | _, _ => none
  else if t == context.fTypes.fUShort then
    match rows, columns with
    | 1, 1 => some context.fTypes.fUShort
    | 1, 2 => some context.fTypes.fUShort2
    | 1, 3 => some context.fTypes.fUShort3
    | 1, 4 => some context.fTypes.fUShort4
    | _, _ => none
  else if t == context.fTypes.fBool then
    match rows, columns with
    | 1, 1 => some context.fTypes.fBool
    | 1, 2 => some context.fTypes.fBool2
    | 1, 3 => some context.fTypes.fBool3
    | 1, 4 => some context.fTypes.fBool4
    | _, _ => none
  else
    none

/-- Symbol kinds, mirroring `Symbol::Kind` for the kinds present in the
embedding. -/
inductive SymbolKind where
  | kField
  | kFunctionDeclaration
  | kSymbolAlias
  | kType
  | kUnresolvedFunction
  | kVariable
deriving DecidableEq

/-- A named entity owned by a symbol table: a type, a variable (modifiers,
name, type, storage class), a function declaration (modifiers, name,
parameters, return type), a field reference (owner variable plus field
index), an unresolved-function overload set, or a symbol alias. -/
inductive Symbol where
  | typeS (t : SkType)
  | var (m : Modifiers) (name : String) (ty : SkType) (storage : Nat)
  | functionDecl (m : Modifiers) (name : String) (params : List Symbol) (returnType : SkType)
  | field (owner : Symbol) (index : Nat)
  | unresolvedFunction (functions : List Symbol)
  | symbolAlias (name : String) (origSymbol : Symbol)

namespace Symbol

/-- Kind of a symbol (mirrors `Symbol::kind()`). -/
def kind : Symbol → SymbolKind
  | typeS _ => SymbolKind.kType
  | var _ _ _ _ => SymbolKind.kVariable
  | functionDecl _ _ _ _ => SymbolKind.kFunctionDeclaration
  | field _ _ => SymbolKind.kField
  | unresolvedFunction _ => SymbolKind.kUnresolvedFunction
  | symbolAlias _ _ => SymbolKind.kSymbolAlias

/-- Name of a symbol (mirrors `Symbol::name()`; a field is named after its
owner, an overload set after its first function). -/
def name : Symbol → String
  | typeS t => t.name
  | var _ n _ _ => n
  | functionDecl _ n _ _ => n
  | field owner _ => owner.name
  | unresolvedFunction (f :: _) => f.name
  | unresolvedFunction [] => ""
  | symbolAlias n _ => n

end Symbol

/-- A symbol table: an optional parent (the lexical chain), the builtin flag,
the list of owned symbols (`fOwnedSymbols`, in insertion order) and the
name-to-symbol mapping (`fSymbols`, most recent binding first). -/
inductive SymTab where
  | mk (parent : Option SymTab) (builtin : Bool) (fOwnedSymbols : List Symbol)
      (fSymbols : List (String × Symbol))

namespace SymTab

/-- Parent scope of a symbol table. -/
def parent : SymTab → Option SymTab
  | mk p _ _ _ => p

/-- Whether the table is a builtin table (mirrors
`SymbolTable::isBuiltin()`). -/
def isBuiltin : SymTab → Bool
  | mk _ b _ _ => b

/-- Symbols owned by the table, in insertion order. -/
def fOwnedSymbols : SymTab → List Symbol
  | mk _ _ os _ => os

/-- The name-to-symbol mapping of the table. -/
def fSymbols : SymTab → List (String × Symbol)
  | mk _ _ _ s => s

/-- Modelled from the spec: `SymbolTable::addWithoutOwnership` registers a
reference to a symbol owned elsewhere under the symbol's name. -/
def addWithoutOwnership : SymTab → Symbol → SymTab
  | mk p b os s, sym => mk p b os ((sym.name, sym) :: s)

/-- Modelled from the spec: `SymbolTable::takeOwnershipOfSymbol` registers a
new owned symbol — the table owns it and name-based lookup finds it. -/
def takeOwnershipOfSymbol : SymTab → Symbol → SymTab
  | mk p b os s, sym => mk p b (os ++ [sym]) ((sym.name, sym) :: s)

/-- Modelled from the spec: `SymbolTable::operator[]` — chained lookup in the
current table and then, recursively, the parent chain; returns the nearest
binding or null. -/
def lookup : SymTab → String → Option Symbol
  | mk none _ _ syms, n =>
    (syms.find? (fun p => p.1 == n)).map Prod.snd
  | mk (some par) _ _ syms, n =>
    match syms.find? (fun p => p.1 == n) with
    | some p => some p.2
    | none => lookup par n

/-- `SymbolTable::add` applied to a type symbol: take ownership of the type
and return it (the template `add` registers the symbol and returns the typed
pointer to it). -/
def add (tab : SymTab) (t : SkType) : SkType × SymTab :=
  (t, tab.takeOwnershipOfSymbol (Symbol.typeS t))

end SymTab

/-- `Type::clone`: builtin singleton types return themselves; a type already
present in the table (by name) is reused after asserting it is a type of the
same kind; otherwise array, struct and enum types are deep-copied via their
`Make` factory and registered as owned in the table; any other kind reaching
the switch is a fatal `SkDEBUGFAILF`. -/
def SkType.clone (t : SkType) (symbolTable : SymTab) : Option (SkType × SymTab) :=
  -- Many types are built-ins, and exist in every SymbolTable by default.
  if t.isInBuiltinTypes then
    some (t, symbolTable)
  else
    -- Even if the type isn't a built-in, it might already exist in the SymbolTable.
    match symbolTable.lookup t.name with
    | some clonedSymbol =>
      match clonedSymbol with
      | Symbol.typeS clonedType =>
        -- SkASSERT(clonedType.typeKind() == this->typeKind())
        if clonedType.typeKind == t.typeKind then
          some (clonedType, symbolTable)
        else
          none
      | _ => none  -- clonedSymbol->as<Type>() on a non-type symbol is fatal
    | none =>
      -- This type actually needs to be cloned into the destination SymbolTable.
      match t.typeKind with
      | TypeKind.kArray =>
        some (symbolTable.add (SkType.MakeArrayType t.name t.componentType t.columns))
      | TypeKind.kStruct =>
        some (symbolTable.add (SkType.MakeStructType t.name t.fields))
      | TypeKind.kEnum =>
        some (symbolTable.add (SkType.MakeEnumType t.name))
      | _ => none  -- SkDEBUGFAILF("don't know how to clone type ...")

/-- A typed expression, as far as `Type::coerceExpression` inspects it: a
bare function-name reference, a bare type-name reference, any other
well-typed expression, or a cast-constructor wrapper produced by coercion. -/
inductive Expression where
  | functionRef (ty : SkType)
  | typeRef (ty : SkType)
  | valueExpr (ty : SkType)
  | constructorScalarCast (ty : SkType) (arg : Expression)
  | constructorCompoundCast (ty : SkType) (arg : Expression)

namespace Expression

/-- Resolved type of an expression (mirrors `Expression::type()`). -/
def type : Expression → SkType
  | functionRef ty => ty
  | typeRef ty => ty
  | valueExpr ty => ty
  | constructorScalarCast ty _ => ty
  | constructorCompoundCast ty _ => ty

/-- Whether the expression is a bare function-name reference (mirrors
`Expression::is<FunctionReference>()`). -/
def isFunctionReference : Expression → Bool
  | functionRef _ => true
  | _ => false

/-- Whether the expression is a bare type-name reference (mirrors
`Expression::is<TypeReference>()`). -/
def isTypeReference : Expression → Bool
  | typeRef _ => true
  | _ => false

/-- `Expression::coercionCost`: the coercion cost from the expression's type
to the target type. -/
def coercionCostTo (e : Expression) (target : SkType) : CoercionCost :=
  coercionCost e.type target

end Expression

/-- Modelled from the spec: `ConstructorScalarCast::Make` wraps the argument
in a scalar-cast constructor node (its source file is outside the
excerpt). -/
def constructorScalarCastMake (ty : SkType) (arg : Expression) : Option Expression :=
  some (Expression.constructorScalarCast ty arg)

/-- Modelled from the spec: `ConstructorCompoundCast::Make` wraps the
argument in a compound-cast constructor node (its source file is outside the
excerpt). -/
def constructorCompoundCastMake (ty : SkType) (arg : Expression) : Option Expression :=
  some (Expression.constructorCompoundCast ty arg)

/-- `Type::coerceExpression`: null passes through; a bare function-name or
type-name reference is a user-facing error; an expression that already has
the target type is returned unchanged; an impossible coercion (under the
narrowing policy) is a user-facing error; otherwise the expression is wrapped
in a scalar-cast or compound-cast constructor, and a non-constructible target
type is a user-facing error.  The second component collects the messages
reported to `context.fErrors`. -/
def SkType.coerceExpression (t : SkType) (expr : Option Expression) (context : Context) :
    Option Expression × List String :=
  match expr with
  | none => (none, [])
  | some e =>
    if e.isFunctionReference then
      (none, ["expected \x27(\x27 to begin function call"])
    else if e.isTypeReference then
      (none, ["expected \x27(\x27 to begin constructor invocation"])
    else if e.type == t then
      (some e, [])
    else if !((e.coercionCostTo t).isPossible context.fSettings.fAllowNarrowingConversions) then
      (none, ["expected \x27" ++ t.displayName ++ "\x27, but found \x27" ++
              e.type.displayName ++ "\x27"])
    else if t.isScalar then
      (constructorScalarCastMake t e, [])
    else if t.isVector || t.isMatrix then
      (constructorCompoundCastMake t e, [])
    else
      (none, ["cannot construct \x27" ++ t.displayName ++ "\x27"])

/-- Modelled from the spec: one constant sub-value slot of a constant-folded
expression, as delivered by `Expression::getConstantSubexpression` — an
integer literal, a floating-point literal (whose magnitude is opaque to range
checking; the payload is just the written numeral), a boolean literal, or a
non-constant slot. -/
inductive SlotValue where
  | intLit (value : Int)
  | floatLit (value : Int)
  | boolLit (value : Bool)
  | nonConst

/-- Loop body of `Type::checkForOutOfRangeLiteral`: walk the slots in order,
report an error for each integer-literal value outside the component type's
range, and remember whether any error was reported. -/
def checkSlots (t baseType : SkType) :
    List SlotValue → List String → Bool → List String × Bool
  | [], errs, foundError => (errs, foundError)
  | SlotValue.intLit value :: rest, errs, foundError =>
    if value < baseType.minimumValue || value > baseType.maximumValue then
      checkSlots t baseType rest
        (errs ++ ["integer is out of range for type \x27" ++ t.displayName ++ "\x27: " ++
                  toString value])
        true
    else
      checkSlots t baseType rest errs foundError
  | _ :: rest, errs, foundError =>
    -- non-integer-literal slots (floats, booleans, non-constants) are skipped
    checkSlots t baseType rest errs foundError

/-- `Type::checkForOutOfRangeLiteral`: when the component type is an integer
type, walk every constant sub-value slot of the (already constant-folded)
expression and report an error for each integer literal outside
`[minimumValue, maximumValue]`; floats and booleans are exempt.  Returns the
reported messages and whether any error was reported. -/
def SkType.checkForOutOfRangeLiteral (t : SkType) (slots : List SlotValue) :
    List String × Bool :=
  let baseType := t.componentType
  if baseType.isInteger then
    checkSlots t baseType slots [] false
  else
    ([], false)

namespace Rehydrator

/-- Modelled from the spec: the command tags are small integers authored in
the rehydrator header (outside the excerpt); the claims depend only on the
tags being distinct, so the tags used by the embedded decoders are assigned
consecutively here. -/
def kArrayType_Command : Nat := 0

/-- Command tag for a builtin-only layout record. -/
def kBuiltinLayout_Command : Nat := 1

/-- Command tag for a default layout record. -/
def kDefaultLayout_Command : Nat := 2

/-- Command tag for a default modifiers record. -/
def kDefaultModifiers_Command : Nat := 3

/-- Command tag for an enum type symbol. -/
def kEnumType_Command : Nat := 4

/-- Command tag for a field symbol. -/
def kField_Command : Nat := 5

/-- Command tag for a function declaration symbol. -/
def kFunctionDeclaration_Command : Nat := 6

/-- Command tag for a full layout record. -/
def kLayout_Command : Nat := 7

/-- Command tag for a modifiers record with 8-bit flags. -/
def kModifiers8Bit_Command : Nat := 8

/-- Command tag for a modifiers record with 32-bit flags. -/
def kModifiers_Command : Nat := 9

/-- Command tag for a struct type symbol. -/
def kStructType_Command : Nat := 10

/-- Command tag for a symbol alias. -/
def kSymbolAlias_Command : Nat := 11

/-- Command tag for a back-reference to a previously decoded symbol. -/
def kSymbolRef_Command : Nat := 12

/-- Command tag opening a nested symbol table. -/
def kSymbolTable_Command : Nat := 13

/-- Command tag for a system (pre-existing global) type looked up by name. -/
def kSystemType_Command : Nat := 14

/-- Command tag for an unresolved-function overload set. -/
def kUnresolvedFunction_Command : Nat := 15

/-- Command tag for a variable symbol. -/
def kVariable_Command : Nat := 16

/-- Command tag marking a void/absent value. -/
def kVoid_Command : Nat := 17

/-- Rehydration session state: the byte buffer, the instruction cursor
(`fIP`, as an index into the buffer), the embedded string table (modelled as
a lookup from string-table index to the string), the active symbol table
(`fSymbolTable`), and the dense symbol registry (`fSymbols`). -/
structure RState where
  buf : List Nat
  ip : Nat
  strings : Nat → String
  fSymbolTable : SymTab
  fSymbols : List Symbol

/-- Modelled from the spec: `Rehydrator::readU8` — a fixed-width byte read
that advances the cursor; reading past the end of the buffer is fatal. -/
def readU8 (st : RState) : Option (Nat × RState) :=
  match st.buf.get? st.ip with
  | some b => some (b, { st with ip := st.ip + 1 })
  | none => none

/-- Modelled from the spec: `Rehydrator::readS8` — `readU8` reinterpreted as
a signed byte. -/
def readS8 (st : RState) : Option (Int × RState) := do
  let (b, st) ← readU8 st
  some (if b ≥ 128 then (b : Int) - 256 else (b : Int), st)

/-- Modelled from the spec: `Rehydrator::readU16` — two `readU8` reads
assembled into a 16-bit value. -/
def readU16 (st : RState) : Option (Nat × RState) := do
  let (b0, st) ← readU8 st
  let (b1, st) ← readU8 st
  some (b0 + 256 * b1, st)

/-- Modelled from the spec: `Rehydrator::readS16` — `readU16` reinterpreted
as a signed 16-bit value. -/
def readS16 (st : RState) : Option (Int × RState) := do
  let (v, st) ← readU16 st
  some (if v ≥ 32768 then (v : Int) - 65536 else (v : Int), st)

/-- Modelled from the spec: `Rehydrator::readU32` — four `readU8` reads
assembled into a 32-bit value. -/
def readU32 (st : RState) : Option (Nat × RState) := do
  let (b0, st) ← readU8 st
  let (b1, st) ← readU8 st
  let (b2, st) ← readU8 st
  let (b3, st) ← readU8 st
  some (b0 + 256 * b1 + 65536 * b2 + 16777216 * b3, st)

/-- Modelled from the spec: `Rehydrator::readS32` — `readU32` reinterpreted
as a signed 32-bit value. -/
def readS32 (st : RState) : Option (Int × RState) := do
  let (v, st) ← readU32 st
  some (if v ≥ 2147483648 then (v : Int) - 4294967296 else (v : Int), st)

/-- Modelled from the spec: `Rehydrator::readString` — strings are
length-prefixed byte spans sliced from the string table embedded at the front
of the buffer; the record itself holds a 16-bit reference, modelled here as
an index into the session's string-table lookup. -/
def readString (st : RState) : Option (String × RState) := do
  let (idx, st) ← readU16 st
  some (st.strings idx, st)

/-- Modelled from the spec: `Rehydrator::addSymbol(id, symbol)` registers a
decoded symbol in the dense registry under the id read from the stream.  Ids
are assigned strictly in encounter order and each id is registered exactly
once before any reference to it, so the id must equal the current registry
size; anything else is a fatal assertion. -/
def RState.addSymbol (st : RState) (id : Nat) (s : Symbol) : Option RState :=
  if id == st.fSymbols.length then
    some { st with fSymbols := st.fSymbols ++ [s] }
  else
    none

/-- The active symbol table takes ownership of a freshly decoded symbol
(`fSymbolTable->takeOwnershipOfSymbol(...)`), returning the symbol. -/
def RState.takeOwnership (st : RState) (s : Symbol) : Symbol × RState :=
  (s, { st with fSymbolTable := st.fSymbolTable.takeOwnershipOfSymbol s })

/-- `Rehydrator::layout`: decodes a layout value as "builtin-only",
"default", or "full"; an unknown tag is a fatal assertion. -/
def layout (st : RState) : Option (Layout × RState) := do
  let (cmd, st) ← readU8 st
  if cmd == kBuiltinLayout_Command then do
    let (b, st) ← readS16 st
    some ({ builtin := b }, st)
  else if cmd == kDefaultLayout_Command then
    some ({}, st)
  else if cmd == kLayout_Command then do
    let (flags, st) ← readU32 st
    let (location, st) ← readS8 st
    let (offset, st) ← readS8 st
    let (binding, st) ← readS8 st
    let (index, st) ← readS8 st
    let (set, st) ← readS8 st
    let (builtin, st) ← readS16 st
    let (inputAttachmentIndex, st) ← readS8 st
    let (primitive, st) ← readS8 st
    let (maxVertices, st) ← readS8 st
    let (invocations, st) ← readS8 st
    let (whenGuard, st) ← readString st
    let (ctype, st) ← readS8 st
    some ({ flags := flags, location := location, offset := offset, binding := binding,
            index := index, set := set, builtin := builtin,
            inputAttachmentIndex := inputAttachmentIndex, primitive := primitive,
            maxVertices := maxVertices, invocations := invocations,
            whenGuard := whenGuard, ctype := ctype }, st)
  else
    none  -- SkASSERT(false)

/-- `Rehydrator::modifiers`: decodes default modifiers or a (layout,
flag-word) pair, with an 8-bit-flag variant; an unknown tag is a fatal
assertion. -/
def modifiers (st : RState) : Option (Modifiers × RState) := do
  let (cmd, st) ← readU8 st
  if cmd == kDefaultModifiers_Command then
    some ({}, st)
  else if cmd == kModifiers8Bit_Command then do
    let (l, st) ← layout st
    let (flags, st) ← readU8 st
    some (⟨l, (flags : Int)⟩, st)
  else if cmd == kModifiers_Command then do
    let (l, st) ← layout st
    let (flags, st) ← readS32 st
    some (⟨l, flags⟩, st)
  else
    none  -- SkASSERT(false)

mutual

/-- `Rehydrator::symbol`: reads a symbol-kind tag and reconstructs one symbol
(array type, enum type, function declaration, field, struct type,
back-reference, symbol alias, system type, unresolved-function set, or
variable).  Every newly created symbol is immediately registered in the
registry under the id read from the stream; an unknown tag is a fatal
assertion.  The `fuel` argument bounds the recursion depth and is consumed on
every nested decode. -/
def symbol : Nat → RState → Option (Symbol × RState)
  | 0, _ => none
  | fuel + 1, st => do
    let (kind, st) ← readU8 st
    if kind == kArrayType_Command then do
      let (id, st) ← readU16 st
      let (componentType, st) ← type fuel st
      let (count, st) ← readS8 st
      let name := componentType.name ++
        (if count == SkType.kUnsizedArray then "[]" else "[" ++ toString count ++ "]")
      let (result, st) := st.takeOwnership
        (Symbol.typeS (SkType.MakeArrayType name componentType count))
      let st ← st.addSymbol id result
      some (result, st)
    else if kind == kEnumType_Command then do
      let (id, st) ← readU16 st
      let (name, st) ← readString st
      let (result, st) := st.takeOwnership (Symbol.typeS (SkType.MakeEnumType name))
      let st ← st.addSymbol id result
      some (result, st)
    else if kind == kFunctionDeclaration_Command then do
      let (id, st) ← readU16 st
      let (m, st) ← modifiers st
      let (name, st) ← readString st
      let (parameterCount, st) ← readU8 st
      let (parameters, st) ← readParameters fuel parameterCount st
      let (returnType, st) ← type fuel st
      let (result, st) := st.takeOwnership (Symbol.functionDecl m name parameters returnType)
      let st ← st.addSymbol id result
      some (result, st)
    else if kind == kField_Command then do
      let (owner, st) ← symbolRefKind fuel SymbolKind.kVariable st
      let (index, st) ← readU8 st
      let (result, st) := st.takeOwnership (Symbol.field owner index)
      some (result, st)
    else if kind == kStructType_Command then do
      let (id, st) ← readU16 st
      let (name, st) ← readString st
      let (fieldCount, st) ← readU8 st
      let (fields, st) ← readFields fuel fieldCount st
      let (result, st) := st.takeOwnership (Symbol.typeS (SkType.MakeStructType name fields))
      let st ← st.addSymbol id result
      some (result, st)
    else if kind == kSymbolRef_Command then do
      let (id, st) ← readU16 st
      -- SkASSERT(fSymbols.size() > id)
      match st.fSymbols.get? id with
      | some s => some (s, st)
      | none => none
    else if kind == kSymbolAlias_Command then do
      let (id, st) ← readU16 st
      let (name, st) ← readString st
      let (origSymbol, st) ← symbol fuel st
      let (result, st) := st.takeOwnership (Symbol.symbolAlias name origSymbol)
      let st ← st.addSymbol id result
      some (result, st)
    else if kind == kSystemType_Command then do
      let (id, st) ← readU16 st
      let (name, st) ← readString st
      -- SkASSERT(result && result->kind() == Symbol::Kind::kType)
      match st.fSymbolTable.lookup name with
      | some result =>
        if result.kind == SymbolKind.kType then do
          let st ← st.addSymbol id result
          some (result, st)
        else
          none
      | none => none
    else if kind == kUnresolvedFunction_Command then do
      let (id, st) ← readU16 st
      let (length, st) ← readU8 st
      let (functions, st) ← readFunctions fuel length st
      let (result, st) := st.takeOwnership (Symbol.unresolvedFunction functions)
      let st ← st.addSymbol id result
      some (result, st)
    else if kind == kVariable_Command then do
      let (id, st) ← readU16 st
      let (m, st) ← modifiers st
      let (name, st) ← readString st
      let (ty, st) ← type fuel st
      let (storage, st) ← readU8 st
      let (result, st) := st.takeOwnership (Symbol.var m name ty storage)
      let st ← st.addSymbol id result
      some (result, st)
    else
      none  -- SkASSERT(false): unsupported symbol

/-- `Rehydrator::type`: decodes a symbol and asserts it is a type. -/
def type : Nat → RState → Option (SkType × RState)
  | 0, _ => none
  | fuel + 1, st => do
    let (result, st) ← symbol fuel st
    match result with
    | Symbol.typeS t => some (t, st)
    | _ => none  -- SkASSERT(result->kind() == Symbol::Kind::kType)

/-- `Rehydrator::symbolRef<T>`: decodes a symbol and asserts its kind. -/
def symbolRefKind : Nat → SymbolKind → RState → Option (Symbol × RState)
  | 0, _, _ => none
  | fuel + 1, k, st => do
    let (result, st) ← symbol fuel st
    if result.kind == k then some (result, st) else none

/-- Parameter loop of the function-declaration decoder: `parameterCount`
variable references in order. -/
def readParameters : Nat → Nat → RState → Option (List Symbol × RState)
  | 0, _, _ => none
  | _ + 1, 0, st => some ([], st)
  | fuel + 1, n + 1, st => do
    let (p, st) ← symbolRefKind fuel SymbolKind.kVariable st
    let (ps, st) ← readParameters fuel n st
    some (p :: ps, st)

/-- Field loop of the struct-type decoder: `fieldCount` (modifiers, name,
type) triples in order. -/
def readFields : Nat → Nat → RState → Option (List (Modifiers × String × SkType) × RState)
  | 0, _, _ => none
  | _ + 1, 0, st => some ([], st)
  | fuel + 1, n + 1, st => do
    let (m, st) ← modifiers st
    let (fieldName, st) ← readString st
    let (ty, st) ← type fuel st
    let (fs, st) ← readFields fuel n st
    some ((m, fieldName, ty) :: fs, st)

/-- Function loop of the unresolved-function decoder: each entry is a decoded
symbol asserted to be a function declaration. -/
def readFunctions : Nat → Nat → RState → Option (List Symbol × RState)
  | 0, _, _ => none
  | _ + 1, 0, st => some ([], st)
  | fuel + 1, n + 1, st => do
    let (f, st) ← symbol fuel st
    -- SkASSERT(f && f->kind() == Symbol::Kind::kFunctionDeclaration)
    if f.kind == SymbolKind.kFunctionDeclaration then do
      let (fs, st) ← readFunctions fuel n st
      some (f :: fs, st)
    else
      none

/-- Owned-symbol loop of the symbol-table decoder: `ownedCount` decoded
symbols in order. -/
def readSymbols : Nat → Nat → RState → Option (List Symbol × RState)
  | 0, _, _ => none
  | _ + 1, 0, st => some ([], st)
  | fuel + 1, n + 1, st => do
    let (s, st) ← symbol fuel st
    let (ss, st) ← readSymbols fuel n st
    some (s :: ss, st)

end

/-- Reference loop of the symbol-table decoder: for each reference, read an
index into the just-decoded owned-symbol list and add that symbol to the
active table without ownership. -/
def addRefs : Nat → List Symbol → RState → Option RState
  | 0, _, st => some st
  | n + 1, ownedSymbols, st => do
    let (index, st) ← readU16 st
    match ownedSymbols.get? index with
    | some s =>
      addRefs n ownedSymbols
        { st with fSymbolTable := st.fSymbolTable.addWithoutOwnership s }
    | none => none  -- ownedSymbols[index] out of bounds

/-- `Rehydrator::symbolTable(inherit)`: a void marker yields null; otherwise
read the owned-symbol count, decode that many symbols into a fresh builtin
table (the active table for the duration), read the reference count, add each
referenced owned symbol without ownership, then restore the previous active
table; any other leading tag is a fatal assertion. -/
def symbolTable (fuel : Nat) (inherit : Bool) (st : RState) :
    Option (Option SymTab × RState) := do
  let (command, st) ← readU8 st
  if command == kVoid_Command then
    some (none, st)
  else if command == kSymbolTable_Command then do
    let (ownedCount, st) ← readU16 st
    let oldTable := st.fSymbolTable
    let result : SymTab :=
      if inherit then SymTab.mk (some st.fSymbolTable) true [] []
      else SymTab.mk none true [] []
    let st := { st with fSymbolTable := result }
    let (ownedSymbols, st) ← readSymbols fuel ownedCount st
    let (symbolCount, st) ← readU16 st
    let st ← addRefs symbolCount ownedSymbols st
    some (some st.fSymbolTable, { st with fSymbolTable := oldTable })
  else
    none  -- SkASSERT(command == kSymbolTable_Command)

/-- `Rehydrator::Rehydrator`: asserts the given symbol table is non-null and
builtin, then positions the cursor past the string data (the stream starts
with a 16-bit offset which is added to the already-advanced cursor). -/
def make (symbolTable : Option SymTab) (src : List Nat) (strings : Nat → String) :
    Option RState := do
  let symTab ← symbolTable  -- SkASSERT(fSymbolTable)
  if symTab.isBuiltin then do
    let st : RState := ⟨src, 0, strings, symTab, []⟩
    let (offset, st) ← readU16 st
    some { st with ip := st.ip + offset }
  else
    none  -- SkASSERT(fSymbolTable->isBuiltin())

end Rehydrator

/-! ## Sample values used by the concrete theorems below -/

/-- A sample non-numeric scalar type with an authored coercible-type list
(the data model allows per-type coercible lists for such builtin types). -/
def skCoercibleSample : SkType :=
  SkType.scalar "$sample" NumberKind.nonnumeric 0 false 0 [skFloat, skHalf]

/-- A builtin root symbol table for sample rehydration sessions. -/
def rootTab : SymTab := SymTab.mk none true [] []

/-- A non-builtin symbol table. -/
def plainTab : SymTab := SymTab.mk none false [] []

/-- Sample string table for the rehydration examples: index 7 holds "E". -/
def exStrings : Nat → String := fun i => if i == 7 then "E" else ""

/-- Sample rehydration stream: a symbol table holding one owned enum-type
symbol (id 0, name "E") and one reference to owned symbol 0. -/
def exBytes : List Nat :=
  [Rehydrator.kSymbolTable_Command, 1, 0,
   Rehydrator.kEnumType_Command, 0, 0, 7, 0,
   1, 0, 0, 0]

/-- The enum-type symbol decoded from `exBytes`. -/
def enumSym : Symbol := Symbol.typeS (SkType.enumT "E")

/-- Initial session state positioned at the start of `exBytes`. -/
def exSt : Rehydrator.RState := ⟨exBytes, 0, exStrings, rootTab, []⟩

/-- A session state whose next command byte is the void marker. -/
def voidSt : Rehydrator.RState := ⟨[Rehydrator.kVoid_Command], 0, exStrings, rootTab, []⟩

/-- Sample struct type for the cloning theorems. -/
def sampleStruct : SkType :=
  SkType.structT "S" [({}, "rgba", SkType.vector "half4" skHalf 4),
                      ({}, "coord", SkType.vector "float2" skFloat 2)]

/-- A symbol table that already holds `sampleStruct` under its name. -/
def tabWithS : SymTab :=
  SymTab.mk none true [] [("S", Symbol.typeS sampleStruct)]

/-! ## Helper lemmas -/

/-- Equality of types compares their names. -/
theorem skType_beq_def (a b : SkType) : (a == b) = (a.name == b.name) := rfl

/-- Unfolding of `coercionCost` for a non-vector, non-matrix source type. -/
theorem coercionCost_default :
    ∀ (t other : SkType), t.isVector = false → t.isMatrix = false →
      coercionCost t other =
        if t == other then CoercionCost.free else numberOrCoercibleCost t other
  | SkType.scalar _ _ _ _ _ _, _, _, _ => rfl
  | SkType.array _ _ _, _, _, _ => rfl
  | SkType.structT _ _, _, _, _ => rfl
  | SkType.enumT _, _, _, _ => rfl
  | SkType.voidT, _, _, _ => rfl
  | SkType.vector _ _ _, _, h, _ => by simp [SkType.isVector] at h
  | SkType.matrix _ _ _ _, _, _, h => by simp [SkType.isMatrix] at h

/-- Unfolding of `coercionCost` for a vector source type. -/
theorem coercionCost_vector (n : String) (c : SkType) (cols : Int) (other : SkType) :
    coercionCost (SkType.vector n c cols) other =
      if (SkType.vector n c cols) == other then CoercionCost.free
      else if other.isVector then
        if (SkType.vector n c cols).columns == other.columns then
          coercionCost c other.componentType
        else CoercionCost.impossible
      else numberOrCoercibleCost (SkType.vector n c cols) other := rfl

/-- Unfolding of `coercionCost` for a matrix source type. -/
theorem coercionCost_matrix (n : String) (c : SkType) (cols rws : Int) (other : SkType) :
    coercionCost (SkType.matrix n c cols rws) other =
      if (SkType.matrix n c cols rws) == other then CoercionCost.free
      else if (SkType.matrix n c cols rws).columns == other.columns &&
              (SkType.matrix n c cols rws).rows == other.rows then
        coercionCost c other.componentType
      else CoercionCost.impossible := rfl

/-- A type satisfying `isScalar` is a `scalar`. -/
theorem eq_scalar_of_isScalar : ∀ {t : SkType}, t.isScalar = true →
    ∃ n nk p l bits cs, t = SkType.scalar n nk p l bits cs
  | SkType.scalar n nk p l bits cs, _ => ⟨n, nk, p, l, bits, cs, rfl⟩

/-- A literal type is a scalar. -/
theorem isScalar_of_isLiteral : ∀ {t : SkType}, t.isLiteral = true → t.isScalar = true
  | SkType.scalar _ _ _ _ _ _, _ => rfl

/-- A type satisfying `isVector` is a `vector`. -/
theorem eq_vector_of_isVector : ∀ {t : SkType}, t.isVector = true →
    ∃ n c cols, t = SkType.vector n c cols
  | SkType.vector n c cols, _ => ⟨n, c, cols, rfl⟩

/-- A type satisfying `isMatrix` is a `matrix`. -/
theorem eq_matrix_of_isMatrix : ∀ {t : SkType}, t.isMatrix = true →
    ∃ n c cols rws, t = SkType.matrix n c cols rws
  | SkType.matrix n c cols rws, _ => ⟨n, c, cols, rws, rfl⟩

/-- The coercible-list tail of `numberOrCoercibleCost` when the numeric
branch does not apply. -/
theorem numberOrCoercibleCost_of_not_number (a b : SkType)
    (hn : (a.isNumber && b.isNumber) = false) :
    numberOrCoercibleCost a b =
      match (a.coercibleTypes).findIdx? (fun u => u == b) with
      | some i => CoercionCost.normal (i + 1)
      | none => CoercionCost.impossible := by
  unfold numberOrCoercibleCost
  rw [hn]
  simp

/-- The literal/kind/priority branch of `numberOrCoercibleCost` for numeric
operands that are not a literal-integer source and have equal kinds. -/
theorem numberOrCoercibleCost_of_number (a b : SkType)
    (hn : (a.isNumber && b.isNumber) = true)
    (hlit : (a.isLiteral && a.isInteger) = false)
    (hkind : a.numberKind = b.numberKind) :
    numberOrCoercibleCost a b =
      if b.priority ≥ a.priority then CoercionCost.normal (b.priority - a.priority)
      else CoercionCost.narrowing (a.priority - b.priority) := by
  unfold numberOrCoercibleCost
  rw [hn, hlit]
  simp [bne, hkind]

/-- When neither compound branch applies and the types differ,
`coercionCost` reduces to its numeric/coercible tail. -/
theorem coercionCost_eq_tail : ∀ (a b : SkType), (a.isVector && b.isVector) = false →
    a.isMatrix = false → (a == b) = false → coercionCost a b = numberOrCoercibleCost a b
  | SkType.vector n c cols, b, hvec, _, hne => by
    have hbv : b.isVector = false := by
      cases hb : b.isVector
      · rfl
      · rw [hb] at hvec; simp [SkType.isVector] at hvec
    rw [coercionCost_vector, if_neg (by simp [hne]), if_neg (by simp [hbv])]
  | SkType.matrix n c cols rws, _, _, hmat, _ => by simp [SkType.isMatrix] at hmat
  | SkType.scalar n nk p l bits cs, b, _, _, hne => by
    rw [coercionCost_default (SkType.scalar n nk p l bits cs) b rfl rfl, if_neg (by simp [hne])]
  | SkType.array n c cols, b, _, _, hne => by
    rw [coercionCost_default (SkType.array n c cols) b rfl rfl, if_neg (by simp [hne])]
  | SkType.structT n fs, b, _, _, hne => by
    rw [coercionCost_default (SkType.structT n fs) b rfl rfl, if_neg (by simp [hne])]
  | SkType.enumT n, b, _, _, hne => by
    rw [coercionCost_default (SkType.enumT n) b rfl rfl, if_neg (by simp [hne])]
  | SkType.voidT, b, _, _, hne => by
    rw [coercionCost_default SkType.voidT b rfl rfl, if_neg (by simp [hne])]

/-! ## Claims C1, C2 and C8: the coercion-cost metric -/

/-- Claim C1 fails as stated on the integer-literal pseudo-type: the
integer-literal scalar and `int` are scalar numeric types of the same number
kind and are distinct types, yet their coercion cost is `Free` — contradicting
"`Free` if and only if A == B". -/
theorem claim_C1_counterexample :
    skIntLiteral.isScalar = true ∧ skIntLiteral.isNumber = true ∧
    skInt.isScalar = true ∧ skInt.isNumber = true ∧
    skIntLiteral.numberKind = skInt.numberKind ∧
    (skIntLiteral == skInt) = false ∧
    coercionCost skIntLiteral skInt = CoercionCost.free := by
  decide

/-- Claim C1 (amended): for scalar numeric types of the same number kind
where the source is not an integer-literal type, `coercionCost` is `Free`
exactly when the two types are equal, `Normal(priority(B) - priority(A))`
exactly when they differ and the destination priority is at least the source
priority, and `Narrowing(priority(A) - priority(B))` exactly when they differ
and the destination priority is lower. -/
theorem claim_C1_scalar_trichotomy (a b : SkType)
    (ha : a.isScalar = true) (han : a.isNumber = true)
    (hb : b.isScalar = true) (hbn : b.isNumber = true)
    (hkind : a.numberKind = b.numberKind)
    (hnotlit : ¬(a.isLiteral = true ∧ a.isInteger = true)) :
    (coercionCost a b = CoercionCost.free ↔ (a == b) = true) ∧
    (coercionCost a b = CoercionCost.normal (b.priority - a.priority) ↔
        ((a == b) = false ∧ a.priority ≤ b.priority)) ∧
    (coercionCost a b = CoercionCost.narrowing (a.priority - b.priority) ↔
        ((a == b) = false ∧ b.priority < a.priority)) := by
  obtain ⟨na, ka, pa, la, bia, ca, rfl⟩ := eq_scalar_of_isScalar ha
  obtain ⟨nb, kb, pb, lb, bib, cb, rfl⟩ := eq_scalar_of_isScalar hb
  rw [coercionCost_default (SkType.scalar na ka pa la bia ca)
    (SkType.scalar nb kb pb lb bib cb) rfl rfl]
  by_cases hname : (SkType.scalar na ka pa la bia ca == SkType.scalar nb kb pb lb bib cb) = true
  · rw [if_pos hname]
    simp only [hname]
    exact ⟨by simp, by simp, by simp⟩
  · have hname' : (SkType.scalar na ka pa la bia ca ==
        SkType.scalar nb kb pb lb bib cb) = false := by
      simpa using hname
    rw [if_neg hname]
    have hlit : ((SkType.scalar na ka pa la bia ca).isLiteral &&
        (SkType.scalar na ka pa la bia ca).isInteger) = false := by
      cases hla : (SkType.scalar na ka pa la bia ca).isLiteral
      · simp
      · cases hint : (SkType.scalar na ka pa la bia ca).isInteger
        · simp [hint]
        · exact absurd ⟨hla, hint⟩ hnotlit
    rw [numberOrCoercibleCost_of_number _ _ (by rw [han, hbn]; rfl) hlit hkind]
    by_cases hp : (SkType.scalar nb kb pb lb bib cb).priority ≥
        (SkType.scalar na ka pa la bia ca).priority
    · rw [if_pos hp]
      simp only [SkType.priority] at hp ⊢
      refine ⟨by simp [hname'], by simp [hname', hp], ?_⟩
      simp only [hname']
      constructor
      · intro h; exact absurd h (by simp)
      · rintro ⟨-, hlt⟩; omega
    · rw [if_neg hp]
      simp only [SkType.priority, ge_iff_le, not_le] at hp ⊢
      refine ⟨by simp [hname'], ?_, by simp [hname', hp]⟩
      simp only [hname']
      constructor
      · intro h; exact absurd h (by simp)
      · rintro ⟨-, hle⟩; omega

/-- Witness for claim C1 at `int` / `short`: distinct signed scalar types
where the destination has lower priority. -/
theorem claim_C1_witness :
    (coercionCost skInt skShort = CoercionCost.free ↔ (skInt == skShort) = true) ∧
    (coercionCost skInt skShort = CoercionCost.normal (skShort.priority - skInt.priority) ↔
        ((skInt == skShort) = false ∧ skInt.priority ≤ skShort.priority)) ∧
    (coercionCost skInt skShort = CoercionCost.narrowing (skInt.priority - skShort.priority) ↔
        ((skInt == skShort) = false ∧ skShort.priority < skInt.priority)) :=
  claim_C1_scalar_trichotomy skInt skShort (by decide) (by decide) (by decide) (by decide)
    (by decide) (by decide)

/-- Claim C2 fails as stated on the integer-literal pseudo-type: the
integer-literal scalar and `float` are scalars of different number kinds with
no coercible-type relationship, yet their coercion cost is `Free`, not
`Impossible`. -/
theorem claim_C2_counterexample :
    skIntLiteral.isScalar = true ∧ skFloat.isScalar = true ∧
    skIntLiteral.numberKind ≠ skFloat.numberKind ∧
    skIntLiteral.coercibleTypes.isEmpty = true ∧
    coercionCost skIntLiteral skFloat = CoercionCost.free ∧
    CoercionCost.free ≠ CoercionCost.impossible := by
  decide

/-- Claim C2 (amended): for distinct types, `coercionCost` is `Impossible`
for two vectors with different column counts and for two matrices with
different column or row counts; it is `Impossible` for scalars of different
number kinds with no match for the destination in the source's coercible-type
list, provided the source is not an integer-literal type; when the
vector/matrix shapes match, the cost equals the component-type coercion cost;
and when none of the identity, vector/vector, matrix, or numeric-scalar rules
applies and the destination appears at zero-based index `i` of the source's
coercible-type list, the result is `Normal(i + 1)`. -/
theorem claim_C2_shape_and_coercible :
    (∀ (a b : SkType), a.isVector = true → b.isVector = true → (a == b) = false →
        a.columns ≠ b.columns → coercionCost a b = CoercionCost.impossible) ∧
    (∀ (a b : SkType), a.isMatrix = true → b.isMatrix = true → (a == b) = false →
        (a.columns ≠ b.columns ∨ a.rows ≠ b.rows) →
        coercionCost a b = CoercionCost.impossible) ∧
    (∀ (a b : SkType), a.isScalar = true → b.isScalar = true → (a == b) = false →
        a.numberKind ≠ b.numberKind → ¬(a.isLiteral = true ∧ a.isInteger = true) →
        (∀ u ∈ a.coercibleTypes, (u == b) = false) →
        coercionCost a b = CoercionCost.impossible) ∧
    (∀ (a b : SkType), a.isVector = true → b.isVector = true → (a == b) = false →
        a.columns = b.columns →
        coercionCost a b = coercionCost a.componentType b.componentType) ∧
    (∀ (a b : SkType), a.isMatrix = true → b.isMatrix = true → (a == b) = false →
        a.columns = b.columns → a.rows = b.rows →
        coercionCost a b = coercionCost a.componentType b.componentType) ∧
    (∀ (a b : SkType) (i : Nat), (a.isVector && b.isVector) = false → a.isMatrix = false →
        (a.isNumber && b.isNumber) = false → (a == b) = false →
        (a.coercibleTypes).findIdx? (fun u => u == b) = some i →
        coercionCost a b = CoercionCost.normal (i + 1)) := by
  refine ⟨?_, ?_, ?_, ?_, ?_, ?_⟩
  · intro a b ha hb hne hcols
    obtain ⟨na, ca, cola, rfl⟩ := eq_vector_of_isVector ha
    obtain ⟨nb, cb, colb, rfl⟩ := eq_vector_of_isVector hb
    rw [coercionCost_vector, if_neg (by simp [hne]), if_pos (by simp [hb])]
    simp only [SkType.columns] at hcols ⊢
    rw [if_neg (by simpa using hcols)]
  · intro a b ha hb hne hshape
    obtain ⟨na, ca, cola, rwa', rfl⟩ := eq_matrix_of_isMatrix ha
    obtain ⟨nb, cb, colb, rwb, rfl⟩ := eq_matrix_of_isMatrix hb
    rw [coercionCost_matrix, if_neg (by simp [hne]), if_neg]
    simp only [SkType.columns, SkType.rows] at hshape ⊢
    rcases hshape with h | h <;> simp [h]
  · intro a b ha hb hne hkind hnotlit hco
    obtain ⟨na, ka, pa, la, bia, ca, rfl⟩ := eq_scalar_of_isScalar ha
    obtain ⟨nb, kb, pb, lb, bib, cb, rfl⟩ := eq_scalar_of_isScalar hb
    rw [coercionCost_eq_tail (SkType.scalar na ka pa la bia ca)
      (SkType.scalar nb kb pb lb bib cb) rfl rfl hne]
    by_cases hn : ((SkType.scalar na ka pa la bia ca).isNumber &&
        (SkType.scalar nb kb pb lb bib cb).isNumber) = true
    · unfold numberOrCoercibleCost
      rw [hn]
      have hlit : ((SkType.scalar na ka pa la bia ca).isLiteral &&
          (SkType.scalar na ka pa la bia ca).isInteger) = false := by
        cases hla : (SkType.scalar na ka pa la bia ca).isLiteral
        · simp
        · cases hint : (SkType.scalar na ka pa la bia ca).isInteger
          · simp [hint]
          · exact absurd ⟨hla, hint⟩ hnotlit
      rw [hlit]
      simp [bne, hkind]
    · rw [numberOrCoercibleCost_of_not_number _ _ (by simpa using hn)]
      rw [List.findIdx?_eq_none_iff.mpr (fun u hu => hco u hu)]
  · intro a b ha hb hne hcols
    obtain ⟨na, ca, cola, rfl⟩ := eq_vector_of_isVector ha
    obtain ⟨nb, cb, colb, rfl⟩ := eq_vector_of_isVector hb
    rw [coercionCost_vector, if_neg (by simp [hne]), if_pos (by simp [hb])]
    simp only [SkType.columns] at hcols ⊢
    rw [if_pos (by simpa using hcols)]
    simp [SkType.componentType]
  · intro a b ha hb hne hcols hrows
    obtain ⟨na, ca, cola, rwa', rfl⟩ := eq_matrix_of_isMatrix ha
    obtain ⟨nb, cb, colb, rwb, rfl⟩ := eq_matrix_of_isMatrix hb
    rw [coercionCost_matrix, if_neg (by simp [hne]), if_pos]
    · simp [SkType.componentType]
    · simp only [SkType.columns, SkType.rows] at hcols hrows ⊢
      simp [hcols, hrows]
  · intro a b i hvec hmat hnum hne hfind
    rw [coercionCost_eq_tail a b hvec hmat hne,
      numberOrCoercibleCost_of_not_number _ _ hnum, hfind]

/-- Witness for claim C2 across its clauses: mismatched vector shapes,
scalars of different kinds, matched vector shapes, and a positional
coercible-list match. -/
theorem claim_C2_witness :
    coercionCost (SkType.vector "float2" skFloat 2) (SkType.vector "half3" skHalf 3) =
      CoercionCost.impossible ∧
    coercionCost skBool skInt = CoercionCost.impossible ∧
    coercionCost (SkType.vector "float3" skFloat 3) (SkType.vector "half3" skHalf 3) =
      coercionCost skFloat skHalf ∧
    coercionCost skCoercibleSample skHalf = CoercionCost.normal 2 :=
  ⟨claim_C2_shape_and_coercible.1 _ _ (by decide) (by decide) (by decide) (by decide),
   claim_C2_shape_and_coercible.2.2.1 _ _ (by decide) (by decide) (by decide) (by decide)
     (by decide) (by intro u hu; exact absurd hu (List.not_mem_nil u)),
   claim_C2_shape_and_coercible.2.2.2.1 _ _ (by decide) (by decide) (by decide) (by decide),
   claim_C2_shape_and_coercible.2.2.2.2.2 _ _ 1 (by decide) (by decide) (by decide) (by decide)
     (by decide)⟩

/-- Claim C8: an integer-literal scalar source coerces to any numeric type
for `Free`, even across number kinds. -/
theorem claim_C8_literal_free (l n : SkType)
    (hlit : l.isLiteral = true) (hint : l.isInteger = true) (hn : n.isNumber = true) :
    coercionCost l n = CoercionCost.free := by
  obtain ⟨nl, kl, pl, ll, bl, cl, rfl⟩ := eq_scalar_of_isScalar (isScalar_of_isLiteral hlit)
  rw [coercionCost_default (SkType.scalar nl kl pl ll bl cl) n rfl rfl]
  by_cases hname : (SkType.scalar nl kl pl ll bl cl == n) = true
  · rw [if_pos hname]
  · rw [if_neg hname]
    unfold numberOrCoercibleCost
    have hnum : (SkType.scalar nl kl pl ll bl cl).isNumber = true := by
      simp [SkType.isNumber, hint]
    rw [hnum, hn, hlit, hint]
    simp

/-- Witness for claim C8 at the integer-literal type and `half` (different
number kinds, distinct types). -/
theorem claim_C8_witness : coercionCost skIntLiteral skHalf = CoercionCost.free :=
  claim_C8_literal_free skIntLiteral skHalf (by decide) (by decide) (by decide)

/-! ## Claim C7: compound-type synthesis -/

/-- Claim C7: `toCompound` returns the canonical builtin singleton for a
supported base type and shape — `float` with shape (3,1) gives the `float3`
singleton and `half` with shape (3,3) gives the `half3x3` singleton (repeated
calls agree since the function is pure and always returns the canonical
member of the builtin set) — while an unsupported shape (`float` with 5
columns, `bool` as a matrix base), or a non-scalar base type, is a fatal
internal error, modelled as `none`. -/
theorem claim_C7_toCompound :
    SkType.toCompound skFloat skContext 3 1 = some skContext.fTypes.fFloat3 ∧
    SkType.toCompound skHalf skContext 3 3 = some skContext.fTypes.fHalf3x3 ∧
    SkType.toCompound skFloat skContext 5 1 = none ∧
    SkType.toCompound skBool skContext 2 2 = none ∧
    SkType.toCompound skContext.fTypes.fFloat2 skContext 2 1 = none :=
  ⟨rfl, rfl, rfl, rfl, rfl⟩

/-! ## Claim C3: cross-table type cloning -/

/-- A freshly owned symbol is found by name lookup in the owning table. -/
theorem lookup_takeOwnership (s : SymTab) (sym : Symbol) :
    (s.takeOwnershipOfSymbol sym).lookup sym.name = some sym := by
  cases s with
  | mk p b os syms =>
    cases p <;> simp [SymTab.takeOwnershipOfSymbol, SymTab.lookup, List.find?]

/-- Claim C3: cloning a builtin singleton type returns the type itself with
the table untouched; cloning a type whose name already resolves (anywhere in
the chain) to a type of the same kind returns that existing instance with the
table untouched; and cloning a not-yet-present non-builtin type (an array,
struct, or enum) registers the deep copy as owned in the table, after which a
second clone against the same table returns the identical instance and leaves
the table unchanged. -/
theorem claim_C3_clone :
    (∀ (t : SkType) (s : SymTab), t.isInBuiltinTypes = true →
        SkType.clone t s = some (t, s)) ∧
    (∀ (t : SkType) (s : SymTab) (ct : SkType), t.isInBuiltinTypes = false →
        s.lookup t.name = some (Symbol.typeS ct) → (ct.typeKind == t.typeKind) = true →
        SkType.clone t s = some (ct, s)) ∧
    (∀ (t : SkType) (s : SymTab), t.isInBuiltinTypes = false → s.lookup t.name = none →
        SkType.clone t s = some (t, s.takeOwnershipOfSymbol (Symbol.typeS t)) ∧
        SkType.clone t (s.takeOwnershipOfSymbol (Symbol.typeS t)) =
          some (t, s.takeOwnershipOfSymbol (Symbol.typeS t))) := by
  refine ⟨?_, ?_, ?_⟩
  · intro t s hbuiltin
    unfold SkType.clone
    rw [hbuiltin]
    rfl
  · intro t s ct hbuiltin hlook hkind
    unfold SkType.clone
    rw [hbuiltin, hlook]
    simp [hkind]
  · intro t s hbuiltin hlook
    cases t with
    | array n c k =>
      constructor
      · unfold SkType.clone
        rw [hbuiltin, hlook]
        rfl
      · unfold SkType.clone
        rw [hbuiltin]
        have := lookup_takeOwnership s (Symbol.typeS (SkType.array n c k))
        rw [show (Symbol.typeS (SkType.array n c k)).name = (SkType.array n c k).name from rfl]
          at this
        rw [this]
        simp
    | structT n fs =>
      constructor
      · unfold SkType.clone
        rw [hbuiltin, hlook]
        rfl
      · unfold SkType.clone
        rw [hbuiltin]
        have := lookup_takeOwnership s (Symbol.typeS (SkType.structT n fs))
        rw [show (Symbol.typeS (SkType.structT n fs)).name = (SkType.structT n fs).name from rfl]
          at this
        rw [this]
        simp
    | enumT n =>
      constructor
      · unfold SkType.clone
        rw [hbuiltin, hlook]
        rfl
      · unfold SkType.clone
        rw [hbuiltin]
        have := lookup_takeOwnership s (Symbol.typeS (SkType.enumT n))
        rw [show (Symbol.typeS (SkType.enumT n)).name = (SkType.enumT n).name from rfl] at this
        rw [this]
        simp
    | scalar n nk p l bits cs =>
      simp [SkType.isInBuiltinTypes, SkType.isArray, SkType.isStruct, SkType.isEnum] at hbuiltin
    | vector n c cols =>
      simp [SkType.isInBuiltinTypes, SkType.isArray, SkType.isStruct, SkType.isEnum] at hbuiltin
    | matrix n c cols rws =>
      simp [SkType.isInBuiltinTypes, SkType.isArray, SkType.isStruct, SkType.isEnum] at hbuiltin
    | voidT =>
      simp [SkType.isInBuiltinTypes, SkType.isArray, SkType.isStruct, SkType.isEnum] at hbuiltin

/-- Witness for claim C3: the builtin `float` clones to itself against any
table; a struct already present in a table clones to the present instance;
a fresh struct clone registers itself and a second clone returns the same
instance. -/
theorem claim_C3_witness :
    SkType.clone skFloat tabWithS = some (skFloat, tabWithS) ∧
    SkType.clone sampleStruct tabWithS = some (sampleStruct, tabWithS) ∧
    SkType.clone sampleStruct rootTab =
      some (sampleStruct, rootTab.takeOwnershipOfSymbol (Symbol.typeS sampleStruct)) ∧
    SkType.clone sampleStruct (rootTab.takeOwnershipOfSymbol (Symbol.typeS sampleStruct)) =
      some (sampleStruct, rootTab.takeOwnershipOfSymbol (Symbol.typeS sampleStruct)) :=
  ⟨claim_C3_clone.1 skFloat tabWithS (by decide),
   claim_C3_clone.2.1 sampleStruct tabWithS sampleStruct (by decide) rfl (by decide),
   (claim_C3_clone.2.2 sampleStruct rootTab (by decide) rfl).1,
   (claim_C3_clone.2.2 sampleStruct rootTab (by decide) rfl).2⟩

/-! ## Claim C5: expression coercion -/

/-- Claim C5: `coerceExpression` reports an error and returns null for a bare
function-name reference and for a bare type-name reference; it returns the
expression unchanged (with no error) when its type already equals the target;
it reports an error and returns null when the coercion cost is not possible
under the active narrowing policy; and otherwise it wraps the expression in a
scalar-cast constructor for a scalar target, or in a compound-cast
constructor for a vector or matrix target. -/
theorem claim_C5_coerceExpression (t : SkType) (e : Expression) (context : Context) :
    (e.isFunctionReference = true →
        SkType.coerceExpression t (some e) context =
          (none, ["expected \x27(\x27 to begin function call"])) ∧
    (e.isFunctionReference = false → e.isTypeReference = true →
        SkType.coerceExpression t (some e) context =
          (none, ["expected \x27(\x27 to begin constructor invocation"])) ∧
    (e.isFunctionReference = false → e.isTypeReference = false → (e.type == t) = true →
        SkType.coerceExpression t (some e) context = (some e, [])) ∧
    (e.isFunctionReference = false → e.isTypeReference = false → (e.type == t) = false →
        (e.coercionCostTo t).isPossible context.fSettings.fAllowNarrowingConversions = false →
        SkType.coerceExpression t (some e) context =
          (none, ["expected \x27" ++ t.displayName ++ "\x27, but found \x27" ++
                  e.type.displayName ++ "\x27"])) ∧
    (e.isFunctionReference = false → e.isTypeReference = false → (e.type == t) = false →
        (e.coercionCostTo t).isPossible context.fSettings.fAllowNarrowingConversions = true →
        t.isScalar = true →
        SkType.coerceExpression t (some e) context =
          (some (Expression.constructorScalarCast t e), [])) ∧
    (e.isFunctionReference = false → e.isTypeReference = false → (e.type == t) = false →
        (e.coercionCostTo t).isPossible context.fSettings.fAllowNarrowingConversions = true →
        t.isScalar = false → (t.isVector || t.isMatrix) = true →
        SkType.coerceExpression t (some e) context =
          (some (Expression.constructorCompoundCast t e), [])) := by
  refine ⟨?_, ?_, ?_, ?_, ?_, ?_⟩
  · intro h1
    simp [SkType.coerceExpression, h1]
  · intro h1 h2
    simp [SkType.coerceExpression, h1, h2]
  · intro h1 h2 h3
    simp [SkType.coerceExpression, h1, h2, h3]
  · intro h1 h2 h3 h4
    simp [SkType.coerceExpression, h1, h2, h3, h4]
  · intro h1 h2 h3 h4 h5
    simp [SkType.coerceExpression, constructorScalarCastMake, h1, h2, h3, h4, h5]
  · intro h1 h2 h3 h4 h5 h6
    simp [SkType.coerceExpression, constructorCompoundCastMake, h1, h2, h3, h4, h5, h6]

/-- Witness for claim C5: a function reference is rejected; a type reference
is rejected; an `int` expression is already an `int`; an `int` expression
cannot become a `float` (narrowing disabled and the kinds differ); a `half`
expression is wrapped in a scalar cast towards `float`; a `half3` expression
is wrapped in a compound cast towards `float3`. -/
theorem claim_C5_witness :
    SkType.coerceExpression skFloat (some (Expression.functionRef skFloat)) skContext =
      (none, ["expected \x27(\x27 to begin function call"]) ∧
    SkType.coerceExpression skFloat (some (Expression.typeRef skFloat)) skContext =
      (none, ["expected \x27(\x27 to begin constructor invocation"]) ∧
    SkType.coerceExpression skInt (some (Expression.valueExpr skInt)) skContext =
      (some (Expression.valueExpr skInt), []) ∧
    SkType.coerceExpression skFloat (some (Expression.valueExpr skInt)) skContext =
      (none, ["expected \x27" ++ skFloat.displayName ++ "\x27, but found \x27" ++
              (Expression.valueExpr skInt).type.displayName ++ "\x27"]) ∧
    SkType.coerceExpression skFloat (some (Expression.valueExpr skHalf)) skContext =
      (some (Expression.constructorScalarCast skFloat (Expression.valueExpr skHalf)), []) ∧
    SkType.coerceExpression skContext.fTypes.fFloat3
        (some (Expression.valueExpr skContext.fTypes.fHalf3)) skContext =
      (some (Expression.constructorCompoundCast skContext.fTypes.fFloat3
              (Expression.valueExpr skContext.fTypes.fHalf3)), []) :=
  ⟨(claim_C5_coerceExpression skFloat (Expression.functionRef skFloat) skContext).1 rfl,
   (claim_C5_coerceExpression skFloat (Expression.typeRef skFloat) skContext).2.1 rfl rfl,
   (claim_C5_coerceExpression skInt (Expression.valueExpr skInt) skContext).2.2.1
     rfl rfl (by decide),
   (claim_C5_coerceExpression skFloat (Expression.valueExpr skInt) skContext).2.2.2.1
     rfl rfl (by decide) (by decide),
   (claim_C5_coerceExpression skFloat (Expression.valueExpr skHalf) skContext).2.2.2.2.1
     rfl rfl (by decide) (by decide) (by decide),
   (claim_C5_coerceExpression skContext.fTypes.fFloat3
       (Expression.valueExpr skContext.fTypes.fHalf3) skContext).2.2.2.2.2
     rfl rfl (by decide) (by decide) (by decide) (by decide)⟩

/-! ## Claim C6: integer range checking -/

/-- Accumulator characterisation of the `checkForOutOfRangeLiteral` loop: the
number of reported errors is the number of out-of-range integer-literal
slots, and the returned flag records whether the error list is nonempty. -/
theorem checkSlots_spec (t baseType : SkType) :
    ∀ (slots : List SlotValue) (errs : List String) (found : Bool),
      (checkSlots t baseType slots errs found).1.length =
        errs.length + slots.countP (fun s =>
          match s with
          | SlotValue.intLit v =>
            decide (v < baseType.minimumValue ∨ v > baseType.maximumValue)
          | _ => false) ∧
      ((checkSlots t baseType slots errs found).2 = true ↔
        (found = true ∨ slots.any (fun s =>
          match s with
          | SlotValue.intLit v =>
            decide (v < baseType.minimumValue ∨ v > baseType.maximumValue)
          | _ => false) = true))
  | [], errs, found => by simp [checkSlots]
  | SlotValue.intLit v :: rest, errs, found => by
    by_cases h : v < baseType.minimumValue ∨ v > baseType.maximumValue
    · have hb : (decide (v < baseType.minimumValue) ||
          decide (v > baseType.maximumValue)) = true := by
        rcases h with h | h <;> simp [h]
      have ih := checkSlots_spec t baseType rest
        (errs ++ ["integer is out of range for type \x27" ++ t.displayName ++ "\x27: " ++
                  toString v]) true
      simp only [checkSlots, hb, if_true]
      constructor
      · rw [ih.1]
        simp [List.countP_cons, h]
        omega
      · rw [ih.2]
        simp [List.any_cons, h]
    · have hb : (decide (v < baseType.minimumValue) ||
          decide (v > baseType.maximumValue)) = false := by
        push_neg at h
        simp [h.1, h.2]
      have ih := checkSlots_spec t baseType rest errs found
      simp only [checkSlots, hb, Bool.false_eq_true, if_false]
      constructor
      · rw [ih.1]
        simp [List.countP_cons, h]
      · rw [ih.2]
        simp [List.any_cons, h]
  | SlotValue.floatLit v :: rest, errs, found => by
    have ih := checkSlots_spec t baseType rest errs found
    simp only [checkSlots]
    constructor
    · rw [ih.1]
      simp [List.countP_cons]
    · rw [ih.2]
      simp [List.any_cons]
  | SlotValue.boolLit v :: rest, errs, found => by
    have ih := checkSlots_spec t baseType rest errs found
    simp only [checkSlots]
    constructor
    · rw [ih.1]
      simp [List.countP_cons]
    · rw [ih.2]
      simp [List.any_cons]
  | SlotValue.nonConst :: rest, errs, found => by
    have ih := checkSlots_spec t baseType rest errs found
    simp only [checkSlots]
    constructor
    · rw [ih.1]
      simp [List.countP_cons]
    · rw [ih.2]
      simp [List.any_cons]

/-- Claim C6: for a non-integer component type no error is reported; for an
integer component type, exactly the out-of-range integer-literal slots are
reported as errors (floats, booleans, and non-constant slots are never
flagged), and the returned flag is true exactly when at least one error was
reported. -/
theorem claim_C6_checkForOutOfRangeLiteral (t : SkType) (slots : List SlotValue) :
    (t.componentType.isInteger = false →
        t.checkForOutOfRangeLiteral slots = ([], false)) ∧
    (t.componentType.isInteger = true →
        (t.checkForOutOfRangeLiteral slots).1.length =
          slots.countP (fun s =>
            match s with
            | SlotValue.intLit v =>
              decide (v < t.componentType.minimumValue ∨ v > t.componentType.maximumValue)
            | _ => false) ∧
        ((t.checkForOutOfRangeLiteral slots).2 = true ↔
          (t.checkForOutOfRangeLiteral slots).1 ≠ [])) := by
  constructor
  · intro h
    unfold SkType.checkForOutOfRangeLiteral
    simp [h]
  · intro h
    have hdef : t.checkForOutOfRangeLiteral slots = checkSlots t t.componentType slots [] false := by
      unfold SkType.checkForOutOfRangeLiteral
      simp [h]
    rw [hdef]
    have spec := checkSlots_spec t t.componentType slots [] false
    refine ⟨by simpa using spec.1, ?_⟩
    rw [spec.2]
    have hlen := spec.1
    simp only [List.length_nil, Nat.zero_add] at hlen
    constructor
    · rintro (hfalse | hany)
      · cases hfalse
      · intro hnil
        rw [hnil] at hlen
        simp only [List.length_nil] at hlen
        rw [List.any_eq_true] at hany
        obtain ⟨x, hx, hpx⟩ := hany
        have hpos : 0 < slots.countP (fun s =>
            match s with
            | SlotValue.intLit v =>
              decide (v < t.componentType.minimumValue ∨ v > t.componentType.maximumValue)
            | _ => false) := List.countP_pos_iff.mpr ⟨x, hx, hpx⟩
        omega
    · intro hne
      right
      rw [List.any_eq_true]
      by_contra hnone
      push_neg at hnone
      have hzero : slots.countP (fun s =>
          match s with
          | SlotValue.intLit v =>
            decide (v < t.componentType.minimumValue ∨ v > t.componentType.maximumValue)
          | _ => false) = 0 := by
        rw [List.countP_eq_zero]
        intro x hx
        intro hpx
        exact hnone x hx hpx
      rw [hzero] at hlen
      exact hne (List.length_eq_zero.mp hlen)

/-- Witness for claim C6 at the 8-bit signed `byte` type: 300 is flagged,
5 is not, and a large float literal and a boolean are exempt; the flag is
true since one error was reported.  A `float` target reports nothing. -/
theorem claim_C6_witness :
    ((skByte.checkForOutOfRangeLiteral
        [SlotValue.intLit 300, SlotValue.intLit 5, SlotValue.floatLit 900,
         SlotValue.boolLit true]).1.length = 1 ∧
      ((skByte.checkForOutOfRangeLiteral
        [SlotValue.intLit 300, SlotValue.intLit 5, SlotValue.floatLit 900,
         SlotValue.boolLit true]).2 = true ↔
       (skByte.checkForOutOfRangeLiteral
        [SlotValue.intLit 300, SlotValue.intLit 5, SlotValue.floatLit 900,
         SlotValue.boolLit true]).1 ≠ [])) ∧
    skFloat.checkForOutOfRangeLiteral [SlotValue.intLit 99999999999] = ([], false) :=
  ⟨by
    have h := (claim_C6_checkForOutOfRangeLiteral skByte
      [SlotValue.intLit 300, SlotValue.intLit 5, SlotValue.floatLit 900,
       SlotValue.boolLit true]).2 (by decide)
    exact ⟨by rw [h.1]; decide, h.2⟩,
   (claim_C6_checkForOutOfRangeLiteral skFloat [SlotValue.intLit 99999999999]).1 (by decide)⟩


namespace Rehydrator

/-- Byte reads leave the active symbol table untouched. -/
theorem readU8_tab {st : RState} {b : Nat} {st' : RState}
    (h : readU8 st = some (b, st')) : st'.fSymbolTable = st.fSymbolTable := by
  unfold readU8 at h
  cases hg : st.buf.get? st.ip <;> rw [hg] at h
  · cases h
  · simp only [Option.some.injEq, Prod.mk.injEq] at h
    obtain ⟨-, h2⟩ := h
    subst h2
    rfl

/-- Unsigned 16-bit reads leave the active symbol table untouched. -/
theorem readU16_tab {st : RState} {b : Nat} {st' : RState}
    (h : readU16 st = some (b, st')) : st'.fSymbolTable = st.fSymbolTable := by
  unfold readU16 at h
  obtain ⟨⟨b0, st1⟩, h1, h⟩ := Option.bind_eq_some.mp h
  obtain ⟨⟨b1, st2⟩, h2, h⟩ := Option.bind_eq_some.mp h
  simp only [Option.some.injEq, Prod.mk.injEq] at h
  obtain ⟨-, h3⟩ := h
  subst h3
  rw [readU8_tab h2, readU8_tab h1]

/-- Signed byte reads leave the active symbol table untouched. -/
theorem readS8_tab {st : RState} {b : Int} {st' : RState}
    (h : readS8 st = some (b, st')) : st'.fSymbolTable = st.fSymbolTable := by
  unfold readS8 at h
  obtain ⟨⟨b0, st1⟩, h1, h⟩ := Option.bind_eq_some.mp h
  simp only [Option.some.injEq, Prod.mk.injEq] at h
  obtain ⟨-, h2⟩ := h
  subst h2
  exact readU8_tab h1

/-- Signed 16-bit reads leave the active symbol table untouched. -/
theorem readS16_tab {st : RState} {b : Int} {st' : RState}
    (h : readS16 st = some (b, st')) : st'.fSymbolTable = st.fSymbolTable := by
  unfold readS16 at h
  obtain ⟨⟨b0, st1⟩, h1, h⟩ := Option.bind_eq_some.mp h
  simp only [Option.some.injEq, Prod.mk.injEq] at h
  obtain ⟨-, h2⟩ := h
  subst h2
  exact readU16_tab h1

/-- Unsigned 32-bit reads leave the active symbol table untouched. -/
theorem readU32_tab {st : RState} {b : Nat} {st' : RState}
    (h : readU32 st = some (b, st')) : st'.fSymbolTable = st.fSymbolTable := by
  unfold readU32 at h
  obtain ⟨⟨b0, st1⟩, h1, h⟩ := Option.bind_eq_some.mp h
  obtain ⟨⟨b1, st2⟩, h2, h⟩ := Option.bind_eq_some.mp h
  obtain ⟨⟨b2, st3⟩, h3, h⟩ := Option.bind_eq_some.mp h
  obtain ⟨⟨b3, st4⟩, h4, h⟩ := Option.bind_eq_some.mp h
  simp only [Option.some.injEq, Prod.mk.injEq] at h
  obtain ⟨-, h5⟩ := h
  subst h5
  rw [readU8_tab h4, readU8_tab h3, readU8_tab h2, readU8_tab h1]

/-- Signed 32-bit reads leave the active symbol table untouched. -/
theorem readS32_tab {st : RState} {b : Int} {st' : RState}
    (h : readS32 st = some (b, st')) : st'.fSymbolTable = st.fSymbolTable := by
  unfold readS32 at h
  obtain ⟨⟨b0, st1⟩, h1, h⟩ := Option.bind_eq_some.mp h
  simp only [Option.some.injEq, Prod.mk.injEq] at h
  obtain ⟨-, h2⟩ := h
  subst h2
  exact readU32_tab h1

/-- String reads leave the active symbol table untouched. -/
theorem readString_tab {st : RState} {v : String} {st' : RState}
    (h : readString st = some (v, st')) : st'.fSymbolTable = st.fSymbolTable := by
  unfold readString at h
  obtain ⟨⟨b0, st1⟩, h1, h⟩ := Option.bind_eq_some.mp h
  simp only [Option.some.injEq, Prod.mk.injEq] at h
  obtain ⟨-, h2⟩ := h
  subst h2
  exact readU16_tab h1

/-- Layout decoding leaves the active symbol table untouched. -/
theorem layout_tab {st : RState} {v : Layout} {st' : RState}
    (h : layout st = some (v, st')) : st'.fSymbolTable = st.fSymbolTable := by
  unfold layout at h
  obtain ⟨⟨cmd, st1⟩, h1, h⟩ := Option.bind_eq_some.mp h
  have e1 := readU8_tab h1
  by_cases hc1 : (cmd == kBuiltinLayout_Command) = true
  · simp only [hc1, if_true] at h
    obtain ⟨⟨b, st2⟩, h2, h⟩ := Option.bind_eq_some.mp h
    simp only [Option.some.injEq, Prod.mk.injEq] at h
    obtain ⟨-, h3⟩ := h
    subst h3
    rw [readS16_tab h2, e1]
  · simp only [hc1, Bool.false_eq_true, if_false] at h
    by_cases hc2 : (cmd == kDefaultLayout_Command) = true
    · simp only [hc2, if_true, Option.some.injEq, Prod.mk.injEq] at h
      obtain ⟨-, h3⟩ := h
      subst h3
      exact e1
    · simp only [hc2, Bool.false_eq_true, if_false] at h
      by_cases hc3 : (cmd == kLayout_Command) = true
      · simp only [hc3, if_true] at h
        obtain ⟨⟨v1, s1⟩, e2, h⟩ := Option.bind_eq_some.mp h
        obtain ⟨⟨v2, s2⟩, e3, h⟩ := Option.bind_eq_some.mp h
        obtain ⟨⟨v3, s3⟩, e4, h⟩ := Option.bind_eq_some.mp h
        obtain ⟨⟨v4, s4⟩, e5, h⟩ := Option.bind_eq_some.mp h
        obtain ⟨⟨v5, s5⟩, e6, h⟩ := Option.bind_eq_some.mp h
        obtain ⟨⟨v6, s6⟩, e7, h⟩ := Option.bind_eq_some.mp h
        obtain ⟨⟨v7, s7⟩, e8, h⟩ := Option.bind_eq_some.mp h
        obtain ⟨⟨v8, s8⟩, e9, h⟩ := Option.bind_eq_some.mp h
        obtain ⟨⟨v9, s9⟩, e10, h⟩ := Option.bind_eq_some.mp h
        obtain ⟨⟨v10, s10⟩, e11, h⟩ := Option.bind_eq_some.mp h
        obtain ⟨⟨v11, s11⟩, e12, h⟩ := Option.bind_eq_some.mp h
        obtain ⟨⟨v12, s12⟩, e13, h⟩ := Option.bind_eq_some.mp h
        obtain ⟨⟨v13, s13⟩, e14, h⟩ := Option.bind_eq_some.mp h
        simp only [Option.some.injEq, Prod.mk.injEq] at h
        obtain ⟨-, h3⟩ := h
        subst h3
        rw [readS8_tab e14, readString_tab e13, readS8_tab e12, readS8_tab e11,
            readS8_tab e10, readS8_tab e9, readS16_tab e8, readS8_tab e7, readS8_tab e6,
            readS8_tab e5, readS8_tab e4, readS8_tab e3, readU32_tab e2, readU8_tab h1]
      · simp only [hc3, Bool.false_eq_true, if_false] at h
        cases h

/-- Modifier decoding leaves the active symbol table untouched. -/
theorem modifiers_tab {st : RState} {v : Modifiers} {st' : RState}
    (h : modifiers st = some (v, st')) : st'.fSymbolTable = st.fSymbolTable := by
  unfold modifiers at h
  obtain ⟨⟨cmd, st1⟩, h1, h⟩ := Option.bind_eq_some.mp h
  have e1 := readU8_tab h1
  by_cases hc1 : (cmd == kDefaultModifiers_Command) = true
  · simp only [hc1, if_true, Option.some.injEq, Prod.mk.injEq] at h
    obtain ⟨-, h3⟩ := h
    subst h3
    exact e1
  · simp only [hc1, Bool.false_eq_true, if_false] at h
    by_cases hc2 : (cmd == kModifiers8Bit_Command) = true
    · simp only [hc2, if_true] at h
      obtain ⟨⟨l, st2⟩, h2, h⟩ := Option.bind_eq_some.mp h
      obtain ⟨⟨fl, st3⟩, h3, h⟩ := Option.bind_eq_some.mp h
      simp only [Option.some.injEq, Prod.mk.injEq] at h
      obtain ⟨-, h4⟩ := h
      subst h4
      rw [readU8_tab h3, layout_tab h2, e1]
    · simp only [hc2, Bool.false_eq_true, if_false] at h
      by_cases hc3 : (cmd == kModifiers_Command) = true
      · simp only [hc3, if_true] at h
        obtain ⟨⟨l, st2⟩, h2, h⟩ := Option.bind_eq_some.mp h
        obtain ⟨⟨fl, st3⟩, h3, h⟩ := Option.bind_eq_some.mp h
        simp only [Option.some.injEq, Prod.mk.injEq] at h
        obtain ⟨-, h4⟩ := h
        subst h4
        rw [readS32_tab h3, layout_tab h2, e1]
      · simp only [hc3, Bool.false_eq_true, if_false] at h
        cases h

end Rehydrator

namespace Rehydrator

/-- Registry registration leaves the active symbol table untouched. -/
theorem addSymbol_tab {st : RState} {id : Nat} {s : Symbol} {st' : RState}
    (h : st.addSymbol id s = some st') : st'.fSymbolTable = st.fSymbolTable := by
  unfold RState.addSymbol at h
  by_cases hc : (id == st.fSymbols.length) = true
  · simp only [hc, if_true, Option.some.injEq] at h
    subst h
    rfl
  · simp only [hc, Bool.false_eq_true, if_false] at h
    cases h

/-- Taking ownership of a symbol preserves the builtin flag of a table. -/
theorem takeOwnershipOfSymbol_isBuiltin (tab : SymTab) (s : Symbol) :
    (tab.takeOwnershipOfSymbol s).isBuiltin = tab.isBuiltin := by
  cases tab
  rfl

/-- Adding a non-owning reference preserves the builtin flag of a table. -/
theorem addWithoutOwnership_isBuiltin (tab : SymTab) (s : Symbol) :
    (tab.addWithoutOwnership s).isBuiltin = tab.isBuiltin := by
  cases tab
  rfl

/-- Every symbol decoder preserves the builtin flag of the active symbol
table: symbols are only ever added to the table, never replacing it. -/
theorem decode_tab_flag :
    ∀ (fuel : Nat),
      (∀ (st : RState) (s : Symbol) (st' : RState), symbol fuel st = some (s, st') →
        st'.fSymbolTable.isBuiltin = st.fSymbolTable.isBuiltin) ∧
      (∀ (st : RState) (t : SkType) (st' : RState), type fuel st = some (t, st') →
        st'.fSymbolTable.isBuiltin = st.fSymbolTable.isBuiltin) ∧
      (∀ (k : SymbolKind) (st : RState) (s : Symbol) (st' : RState),
        symbolRefKind fuel k st = some (s, st') →
        st'.fSymbolTable.isBuiltin = st.fSymbolTable.isBuiltin) ∧
      (∀ (n : Nat) (st : RState) (ps : List Symbol) (st' : RState),
        readParameters fuel n st = some (ps, st') →
        st'.fSymbolTable.isBuiltin = st.fSymbolTable.isBuiltin) ∧
      (∀ (n : Nat) (st : RState) (fs : List (Modifiers × String × SkType)) (st' : RState),
        readFields fuel n st = some (fs, st') →
        st'.fSymbolTable.isBuiltin = st.fSymbolTable.isBuiltin) ∧
      (∀ (n : Nat) (st : RState) (fs : List Symbol) (st' : RState),
        readFunctions fuel n st = some (fs, st') →
        st'.fSymbolTable.isBuiltin = st.fSymbolTable.isBuiltin) ∧
      (∀ (n : Nat) (st : RState) (ss : List Symbol) (st' : RState),
        readSymbols fuel n st = some (ss, st') →
        st'.fSymbolTable.isBuiltin = st.fSymbolTable.isBuiltin)
  | 0 =>
    ⟨fun _ _ _ h => Option.noConfusion h,
     fun _ _ _ h => Option.noConfusion h,
     fun _ _ _ _ h => Option.noConfusion h,
     fun _ _ _ _ h => Option.noConfusion h,
     fun _ _ _ _ h => Option.noConfusion h,
     fun _ _ _ _ h => Option.noConfusion h,
     fun _ _ _ _ h => Option.noConfusion h⟩
  | fuel + 1 => by
    obtain ⟨ihSym, ihType, ihRef, ihPar, ihFld, ihFun, ihSyms⟩ := decode_tab_flag fuel
    refine ⟨?_, ?_, ?_, ?_, ?_, ?_, ?_⟩
    · -- symbol
      intro st s st' h
      unfold symbol at h
      obtain ⟨⟨kind, st1⟩, e1, h⟩ := Option.bind_eq_some.mp h
      have f1 := readU8_tab e1
      by_cases c0 : (kind == kArrayType_Command) = true
      · simp only [c0, if_true, RState.takeOwnership] at h
        obtain ⟨⟨id, st2⟩, e2, h⟩ := Option.bind_eq_some.mp h
        obtain ⟨⟨ct, st3⟩, e3, h⟩ := Option.bind_eq_some.mp h
        obtain ⟨⟨cnt, st4⟩, e4, h⟩ := Option.bind_eq_some.mp h
        obtain ⟨st5, e5, h⟩ := Option.bind_eq_some.mp h
        simp only [Option.some.injEq, Prod.mk.injEq] at h
        obtain ⟨-, h6⟩ := h
        subst h6
        rw [addSymbol_tab e5]
        show (st4.fSymbolTable.takeOwnershipOfSymbol _).isBuiltin = _
        rw [takeOwnershipOfSymbol_isBuiltin, readS8_tab e4, ihType _ _ _ e3,
            readU16_tab e2, f1]
      simp only [c0, Bool.false_eq_true, if_false] at h
      by_cases c1 : (kind == kEnumType_Command) = true
      · simp only [c1, if_true, RState.takeOwnership] at h
        obtain ⟨⟨id, st2⟩, e2, h⟩ := Option.bind_eq_some.mp h
        obtain ⟨⟨nm, st3⟩, e3, h⟩ := Option.bind_eq_some.mp h
        obtain ⟨st4, e4, h⟩ := Option.bind_eq_some.mp h
        simp only [Option.some.injEq, Prod.mk.injEq] at h
        obtain ⟨-, h5⟩ := h
        subst h5
        rw [addSymbol_tab e4]
        show (st3.fSymbolTable.takeOwnershipOfSymbol _).isBuiltin = _
        rw [takeOwnershipOfSymbol_isBuiltin, readString_tab e3, readU16_tab e2, f1]
      simp only [c1, Bool.false_eq_true, if_false] at h
      by_cases c2 : (kind == kFunctionDeclaration_Command) = true
      · simp only [c2, if_true, RState.takeOwnership] at h
        obtain ⟨⟨id, st2⟩, e2, h⟩ := Option.bind_eq_some.mp h
        obtain ⟨⟨m, st3⟩, e3, h⟩ := Option.bind_eq_some.mp h
        obtain ⟨⟨nm, st4⟩, e4, h⟩ := Option.bind_eq_some.mp h
        obtain ⟨⟨pc, st5⟩, e5, h⟩ := Option.bind_eq_some.mp h
        obtain ⟨⟨ps, st6⟩, e6, h⟩ := Option.bind_eq_some.mp h
        obtain ⟨⟨rt, st7⟩, e7, h⟩ := Option.bind_eq_some.mp h
        obtain ⟨st8, e8, h⟩ := Option.bind_eq_some.mp h
        simp only [Option.some.injEq, Prod.mk.injEq] at h
        obtain ⟨-, h9⟩ := h
        subst h9
        rw [addSymbol_tab e8]
        show (st7.fSymbolTable.takeOwnershipOfSymbol _).isBuiltin = _
        rw [takeOwnershipOfSymbol_isBuiltin, ihType _ _ _ e7, ihPar _ _ _ _ e6,
            readU8_tab e5, readString_tab e4, modifiers_tab e3, readU16_tab e2, f1]
      simp only [c2, Bool.false_eq_true, if_false] at h
      by_cases c3 : (kind == kField_Command) = true
      · simp only [c3, if_true, RState.takeOwnership] at h
        obtain ⟨⟨ow, st2⟩, e2, h⟩ := Option.bind_eq_some.mp h
        obtain ⟨⟨ix, st3⟩, e3, h⟩ := Option.bind_eq_some.mp h
        simp only [Option.some.injEq, Prod.mk.injEq] at h
        obtain ⟨-, h4⟩ := h
        subst h4
        show (st3.fSymbolTable.takeOwnershipOfSymbol _).isBuiltin = _
        rw [takeOwnershipOfSymbol_isBuiltin, readU8_tab e3, ihRef _ _ _ _ e2, f1]
      simp only [c3, Bool.false_eq_true, if_false] at h
      by_cases c4 : (kind == kStructType_Command) = true
      · simp only [c4, if_true, RState.takeOwnership] at h
        obtain ⟨⟨id, st2⟩, e2, h⟩ := Option.bind_eq_some.mp h
        obtain ⟨⟨nm, st3⟩, e3, h⟩ := Option.bind_eq_some.mp h
        obtain ⟨⟨fc, st4⟩, e4, h⟩ := Option.bind_eq_some.mp h
        obtain ⟨⟨fs, st5⟩, e5, h⟩ := Option.bind_eq_some.mp h
        obtain ⟨st6, e6, h⟩ := Option.bind_eq_some.mp h
        simp only [Option.some.injEq, Prod.mk.injEq] at h
        obtain ⟨-, h7⟩ := h
        subst h7
        rw [addSymbol_tab e6]
        show (st5.fSymbolTable.takeOwnershipOfSymbol _).isBuiltin = _
        rw [takeOwnershipOfSymbol_isBuiltin, ihFld _ _ _ _ e5, readU8_tab e4,
            readString_tab e3, readU16_tab e2, f1]
      simp only [c4, Bool.false_eq_true, if_false] at h
      by_cases c5 : (kind == kSymbolRef_Command) = true
      · simp only [c5, if_true] at h
        obtain ⟨⟨id, st2⟩, e2, h⟩ := Option.bind_eq_some.mp h
        cases hg : st2.fSymbols.get? id <;> rw [hg] at h
        · cases h
        · simp only [Option.some.injEq, Prod.mk.injEq] at h
          obtain ⟨-, h3⟩ := h
          subst h3
          rw [readU16_tab e2, f1]
      simp only [c5, Bool.false_eq_true, if_false] at h
      by_cases c6 : (kind == kSymbolAlias_Command) = true
      · simp only [c6, if_true, RState.takeOwnership] at h
        obtain ⟨⟨id, st2⟩, e2, h⟩ := Option.bind_eq_some.mp h
        obtain ⟨⟨nm, st3⟩, e3, h⟩ := Option.bind_eq_some.mp h
        obtain ⟨⟨og, st4⟩, e4, h⟩ := Option.bind_eq_some.mp h
        obtain ⟨st5, e5, h⟩ := Option.bind_eq_some.mp h
        simp only [Option.some.injEq, Prod.mk.injEq] at h
        obtain ⟨-, h6⟩ := h
        subst h6
        rw [addSymbol_tab e5]
        show (st4.fSymbolTable.takeOwnershipOfSymbol _).isBuiltin = _
        rw [takeOwnershipOfSymbol_isBuiltin, ihSym _ _ _ e4, readString_tab e3,
            readU16_tab e2, f1]
      simp only [c6, Bool.false_eq_true, if_false] at h
      by_cases c7 : (kind == kSystemType_Command) = true
      · simp only [c7, if_true] at h
        obtain ⟨⟨id, st2⟩, e2, h⟩ := Option.bind_eq_some.mp h
        obtain ⟨⟨nm, st3⟩, e3, h⟩ := Option.bind_eq_some.mp h
        cases hg : st3.fSymbolTable.lookup nm <;> rw [hg] at h
        · cases h
        · rename_i found
          by_cases ck : (found.kind == SymbolKind.kType) = true
          · simp only [ck, if_true] at h
            obtain ⟨st4, e4, h⟩ := Option.bind_eq_some.mp h
            simp only [Option.some.injEq, Prod.mk.injEq] at h
            obtain ⟨-, h5⟩ := h
            subst h5
            rw [addSymbol_tab e4, readString_tab e3, readU16_tab e2, f1]
          · simp only [ck, Bool.false_eq_true, if_false] at h
            cases h
      simp only [c7, Bool.false_eq_true, if_false] at h
      by_cases c8 : (kind == kUnresolvedFunction_Command) = true
      · simp only [c8, if_true, RState.takeOwnership] at h
        obtain ⟨⟨id, st2⟩, e2, h⟩ := Option.bind_eq_some.mp h
        obtain ⟨⟨ln, st3⟩, e3, h⟩ := Option.bind_eq_some.mp h
        obtain ⟨⟨fns, st4⟩, e4, h⟩ := Option.bind_eq_some.mp h
        obtain ⟨st5, e5, h⟩ := Option.bind_eq_some.mp h
        simp only [Option.some.injEq, Prod.mk.injEq] at h
        obtain ⟨-, h6⟩ := h
        subst h6
        rw [addSymbol_tab e5]
        show (st4.fSymbolTable.takeOwnershipOfSymbol _).isBuiltin = _
        rw [takeOwnershipOfSymbol_isBuiltin, ihFun _ _ _ _ e4, readU8_tab e3,
            readU16_tab e2, f1]
      simp only [c8, Bool.false_eq_true, if_false] at h
      by_cases c9 : (kind == kVariable_Command) = true
      · simp only [c9, if_true, RState.takeOwnership] at h
        obtain ⟨⟨id, st2⟩, e2, h⟩ := Option.bind_eq_some.mp h
        obtain ⟨⟨m, st3⟩, e3, h⟩ := Option.bind_eq_some.mp h
        obtain ⟨⟨nm, st4⟩, e4, h⟩ := Option.bind_eq_some.mp h
        obtain ⟨⟨ty, st5⟩, e5, h⟩ := Option.bind_eq_some.mp h
        obtain ⟨⟨sg, st6⟩, e6, h⟩ := Option.bind_eq_some.mp h
        obtain ⟨st7, e7, h⟩ := Option.bind_eq_some.mp h
        simp only [Option.some.injEq, Prod.mk.injEq] at h
        obtain ⟨-, h8⟩ := h
        subst h8
        rw [addSymbol_tab e7]
        show (st6.fSymbolTable.takeOwnershipOfSymbol _).isBuiltin = _
        rw [takeOwnershipOfSymbol_isBuiltin, readU8_tab e6, ihType _ _ _ e5,
            readString_tab e4, modifiers_tab e3, readU16_tab e2, f1]
      simp only [c9, Bool.false_eq_true, if_false] at h
      cases h
    · -- type
      intro st t st' h
      unfold type at h
      obtain ⟨⟨s0, st1⟩, e1, h⟩ := Option.bind_eq_some.mp h
      cases s0 with
      | typeS t0 =>
        simp only [Option.some.injEq, Prod.mk.injEq] at h
        obtain ⟨-, h2⟩ := h
        subst h2
        exact ihSym _ _ _ e1
      | var m n ty sg => cases h
      | functionDecl m n ps rt => cases h
      | field ow ix => cases h
      | unresolvedFunction fns => cases h
      | symbolAlias n og => cases h
    · -- symbolRefKind
      intro k st s st' h
      unfold symbolRefKind at h
      obtain ⟨⟨s0, st1⟩, e1, h⟩ := Option.bind_eq_some.mp h
      by_cases ck : (s0.kind == k) = true
      · simp only [ck, if_true, Option.some.injEq, Prod.mk.injEq] at h
        obtain ⟨-, h2⟩ := h
        subst h2
        exact ihSym _ _ _ e1
      · simp only [ck, Bool.false_eq_true, if_false] at h
        cases h
    · -- readParameters
      intro n st ps st' h
      cases n with
      | zero =>
        unfold readParameters at h
        simp only [Option.some.injEq, Prod.mk.injEq] at h
        obtain ⟨-, h2⟩ := h
        subst h2
        rfl
      | succ m =>
        unfold readParameters at h
        obtain ⟨⟨p, st1⟩, e1, h⟩ := Option.bind_eq_some.mp h
        obtain ⟨⟨ps0, st2⟩, e2, h⟩ := Option.bind_eq_some.mp h
        simp only [Option.some.injEq, Prod.mk.injEq] at h
        obtain ⟨-, h3⟩ := h
        subst h3
        rw [ihPar _ _ _ _ e2, ihRef _ _ _ _ e1]
    · -- readFields
      intro n st fs st' h
      cases n with
      | zero =>
        unfold readFields at h
        simp only [Option.some.injEq, Prod.mk.injEq] at h
        obtain ⟨-, h2⟩ := h
        subst h2
        rfl
      | succ m =>
        unfold readFields at h
        obtain ⟨⟨m0, st1⟩, e1, h⟩ := Option.bind_eq_some.mp h
        obtain ⟨⟨nm, st2⟩, e2, h⟩ := Option.bind_eq_some.mp h
        obtain ⟨⟨ty, st3⟩, e3, h⟩ := Option.bind_eq_some.mp h
        obtain ⟨⟨fs0, st4⟩, e4, h⟩ := Option.bind_eq_some.mp h
        simp only [Option.some.injEq, Prod.mk.injEq] at h
        obtain ⟨-, h5⟩ := h
        subst h5
        rw [ihFld _ _ _ _ e4, ihType _ _ _ e3, readString_tab e2, modifiers_tab e1]
    · -- readFunctions
      intro n st fs st' h
      cases n with
      | zero =>
        unfold readFunctions at h
        simp only [Option.some.injEq, Prod.mk.injEq] at h
        obtain ⟨-, h2⟩ := h
        subst h2
        rfl
      | succ m =>
        unfold readFunctions at h
        obtain ⟨⟨f0, st1⟩, e1, h⟩ := Option.bind_eq_some.mp h
        by_cases ck : (f0.kind == SymbolKind.kFunctionDeclaration) = true
        · simp only [ck, if_true] at h
          obtain ⟨⟨fs0, st2⟩, e2, h⟩ := Option.bind_eq_some.mp h
          simp only [Option.some.injEq, Prod.mk.injEq] at h
          obtain ⟨-, h3⟩ := h
          subst h3
          rw [ihFun _ _ _ _ e2, ihSym _ _ _ e1]
        · simp only [ck, Bool.false_eq_true, if_false] at h
          cases h
    · -- readSymbols
      intro n st ss st' h
      cases n with
      | zero =>
        unfold readSymbols at h
        simp only [Option.some.injEq, Prod.mk.injEq] at h
        obtain ⟨-, h2⟩ := h
        subst h2
        rfl
      | succ m =>
        unfold readSymbols at h
        obtain ⟨⟨s0, st1⟩, e1, h⟩ := Option.bind_eq_some.mp h
        obtain ⟨⟨ss0, st2⟩, e2, h⟩ := Option.bind_eq_some.mp h
        simp only [Option.some.injEq, Prod.mk.injEq] at h
        obtain ⟨-, h3⟩ := h
        subst h3
        rw [ihSyms _ _ _ _ e2, ihSym _ _ _ e1]

end Rehydrator

namespace Rehydrator

/-- The reference loop preserves the builtin flag of the active table. -/
theorem addRefs_flag : ∀ (n : Nat) (owned : List Symbol) (st st' : RState),
    addRefs n owned st = some st' → st'.fSymbolTable.isBuiltin = st.fSymbolTable.isBuiltin
  | 0, owned, st, st', h => by
    unfold addRefs at h
    simp only [Option.some.injEq] at h
    subst h
    rfl
  | n + 1, owned, st, st', h => by
    unfold addRefs at h
    obtain ⟨⟨ix, st1⟩, e1, h⟩ := Option.bind_eq_some.mp h
    simp only [] at h
    cases hg : owned.get? ix <;> rw [hg] at h
    · cases h
    · have ih := addRefs_flag n owned _ _ h
      rw [ih]
      show (st1.fSymbolTable.addWithoutOwnership _).isBuiltin = _
      rw [addWithoutOwnership_isBuiltin, readU16_tab e1]

/-- Claim C9: a void marker makes `symbolTable` return null with the session
state unchanged except for the consumed tag byte; whenever `symbolTable`
returns, the active-symbol-table pointer equals its value before the call;
and on the sample stream it decodes the owned-symbol count, that many owned
symbols into a fresh table, then the reference count and one reference by
index into the owned list, added without ownership. -/
theorem claim_C9_symbolTable :
    (∀ (fuel : Nat) (inherit : Bool) (st : RState),
        st.buf.get? st.ip = some kVoid_Command →
        symbolTable fuel inherit st = some (none, { st with ip := st.ip + 1 })) ∧
    (∀ (fuel : Nat) (inherit : Bool) (st : RState) (r : Option SymTab) (st' : RState),
        symbolTable fuel inherit st = some (r, st') →
        st'.fSymbolTable = st.fSymbolTable) ∧
    (symbolTable 8 false exSt =
      some (some (SymTab.mk none true [enumSym] [("E", enumSym), ("E", enumSym)]),
            ⟨exBytes, 12, exStrings, rootTab, [enumSym]⟩)) := by
  refine ⟨?_, ?_, rfl⟩
  · intro fuel inherit st hv
    unfold symbolTable readU8
    rw [hv]
    simp [kVoid_Command]
  · intro fuel inherit st r st' h
    unfold symbolTable at h
    obtain ⟨⟨cmd, st1⟩, e1, h⟩ := Option.bind_eq_some.mp h
    have f1 := readU8_tab e1
    by_cases cv : (cmd == kVoid_Command) = true
    · simp only [cv, if_true, Option.some.injEq, Prod.mk.injEq] at h
      obtain ⟨-, h2⟩ := h
      subst h2
      exact f1
    simp only [cv, Bool.false_eq_true, if_false] at h
    by_cases cs : (cmd == kSymbolTable_Command) = true
    · simp only [cs, if_true] at h
      obtain ⟨⟨n, st2⟩, e2, h⟩ := Option.bind_eq_some.mp h
      obtain ⟨⟨syms, st3⟩, e3, h⟩ := Option.bind_eq_some.mp h
      obtain ⟨⟨n2, st4⟩, e4, h⟩ := Option.bind_eq_some.mp h
      obtain ⟨st5, e5, h⟩ := Option.bind_eq_some.mp h
      simp only [Option.some.injEq, Prod.mk.injEq] at h
      obtain ⟨-, h6⟩ := h
      subst h6
      show st2.fSymbolTable = st.fSymbolTable
      rw [readU16_tab e2, f1]
    simp only [cs, Bool.false_eq_true, if_false] at h
    cases h

/-- Claim C10: the constructor asserts its symbol table is non-null (a null
table is fatal) and builtin (a non-builtin table is fatal); on success the
given table becomes the active table; and every nested symbol table returned
by `symbolTable` has the builtin flag set to true, whether or not it
inherits from the current table. -/
theorem claim_C10_builtin_root :
    (∀ (src : List Nat) (strings : Nat → String), make none src strings = none) ∧
    (∀ (tab : SymTab) (src : List Nat) (strings : Nat → String),
        tab.isBuiltin = false → make (some tab) src strings = none) ∧
    (∀ (tab : SymTab) (src : List Nat) (strings : Nat → String) (st : RState),
        make (some tab) src strings = some st →
        tab.isBuiltin = true ∧ st.fSymbolTable = tab) ∧
    (∀ (fuel : Nat) (inherit : Bool) (st : RState) (r : SymTab) (st' : RState),
        symbolTable fuel inherit st = some (some r, st') → r.isBuiltin = true) := by
  refine ⟨fun _ _ => rfl, ?_, ?_, ?_⟩
  · intro tab src strings hflag
    cases tab with
    | mk p b os ss =>
      have hb : b = false := hflag
      subst hb
      rfl
  · intro tab src strings st h
    cases tab with
    | mk p b os ss =>
      cases b with
      | false => cases h
      | true =>
        refine ⟨rfl, ?_⟩
        unfold make at h
        obtain ⟨tab1, e0, h⟩ := Option.bind_eq_some.mp h
        simp only [Option.some.injEq] at e0
        subst e0
        rw [if_pos (show (SymTab.mk p true os ss).isBuiltin = true from rfl)] at h
        obtain ⟨⟨off, st1⟩, e1, h⟩ := Option.bind_eq_some.mp h
        simp only [Option.some.injEq] at h
        subst h
        show st1.fSymbolTable = SymTab.mk p true os ss
        rw [readU16_tab e1]
  · intro fuel inherit st r st' h
    unfold symbolTable at h
    obtain ⟨⟨cmd, st1⟩, e1, h⟩ := Option.bind_eq_some.mp h
    by_cases cv : (cmd == kVoid_Command) = true
    · simp only [cv, if_true, Option.some.injEq, Prod.mk.injEq] at h
      obtain ⟨h1, -⟩ := h
      cases h1
    simp only [cv, Bool.false_eq_true, if_false] at h
    by_cases cs : (cmd == kSymbolTable_Command) = true
    · simp only [cs, if_true] at h
      obtain ⟨⟨n, st2⟩, e2, h⟩ := Option.bind_eq_some.mp h
      obtain ⟨⟨syms, st3⟩, e3, h⟩ := Option.bind_eq_some.mp h
      obtain ⟨⟨n2, st4⟩, e4, h⟩ := Option.bind_eq_some.mp h
      obtain ⟨st5, e5, h⟩ := Option.bind_eq_some.mp h
      simp only [Option.some.injEq, Prod.mk.injEq] at h
      obtain ⟨h6, -⟩ := h
      subst h6
      rw [addRefs_flag _ _ _ _ e5, readU16_tab e4,
        (decode_tab_flag fuel).2.2.2.2.2.2 _ _ _ _ e3]
      cases inherit <;> rfl
    simp only [cs, Bool.false_eq_true, if_false] at h
    cases h

/-- Claim C4: a back-reference naming a symbol id not yet registered (the
registry is shorter than the id) is a fatal assertion, never a silent null
or wrong symbol; a back-reference to a registered id returns exactly the
symbol stored under that id; and `addSymbol` registers each id exactly once
in encounter order, after which the id keeps resolving to exactly the
registered symbol across later registrations. -/
theorem claim_C4_symbol_registry :
    (∀ (fuel : Nat) (id : Nat) (rest : List Nat) (strings : Nat → String) (tab : SymTab)
        (syms : List Symbol), id < 65536 → syms.length ≤ id →
        symbol (fuel + 1)
          ⟨kSymbolRef_Command :: id % 256 :: id / 256 :: rest, 0, strings, tab, syms⟩ =
          none) ∧
    (∀ (fuel : Nat) (id : Nat) (rest : List Nat) (strings : Nat → String) (tab : SymTab)
        (syms : List Symbol) (s : Symbol), id < 65536 → syms.get? id = some s →
        symbol (fuel + 1)
          ⟨kSymbolRef_Command :: id % 256 :: id / 256 :: rest, 0, strings, tab, syms⟩ =
          some (s,
            ⟨kSymbolRef_Command :: id % 256 :: id / 256 :: rest, 3, strings, tab, syms⟩)) ∧
    (∀ (st : RState) (id : Nat) (s : Symbol) (st' : RState),
        st.addSymbol id s = some st' →
        id = st.fSymbols.length ∧ st'.fSymbols.get? id = some s ∧
        (∀ (id' : Nat) (s' : Symbol) (st'' : RState),
          st'.addSymbol id' s' = some st'' → st''.fSymbols.get? id = some s)) := by
  refine ⟨?_, ?_, ?_⟩
  · intro fuel id rest strings tab syms hid hlen
    show (match syms.get? (id % 256 + 256 * (id / 256)) with
          | some s => some (s,
              (⟨kSymbolRef_Command :: id % 256 :: id / 256 :: rest, 3, strings, tab,
                syms⟩ : RState))
          | none => (none : Option (Symbol × RState))) = none
    rw [Nat.mod_add_div, List.get?_eq_none.mpr hlen]
  · intro fuel id rest strings tab syms s hid hget
    show (match syms.get? (id % 256 + 256 * (id / 256)) with
          | some s => some (s,
              (⟨kSymbolRef_Command :: id % 256 :: id / 256 :: rest, 3, strings, tab,
                syms⟩ : RState))
          | none => (none : Option (Symbol × RState))) = _
    rw [Nat.mod_add_div, hget]
  · intro st id s st' h
    unfold RState.addSymbol at h
    by_cases hc : (id == st.fSymbols.length) = true
    · simp only [hc, if_true, Option.some.injEq] at h
      have hid : id = st.fSymbols.length := by simpa using hc
      subst h
      refine ⟨hid, ?_, ?_⟩
      · show (st.fSymbols ++ [s]).get? id = some s
        rw [hid]
        exact List.get?_concat_length st.fSymbols s
      · intro id' s' st'' h'
        unfold RState.addSymbol at h'
        by_cases hc' : (id' == (st.fSymbols ++ [s]).length) = true
        · simp only [hc', if_true, Option.some.injEq] at h'
          subst h'
          show ((st.fSymbols ++ [s]) ++ [s']).get? id = some s
          rw [List.get?_append, hid]
          · exact List.get?_concat_length st.fSymbols s
          · rw [List.length_append, hid]
            simp
        · simp only [hc', Bool.false_eq_true, if_false] at h'
          cases h'
    · simp only [hc, Bool.false_eq_true, if_false] at h
      cases h

/-- Witness for claim C9: a void-marker stream returns null with only the tag
byte consumed, and the sample decode restores the previous active table. -/
theorem claim_C9_witness :
    symbolTable 3 true voidSt = some (none, { voidSt with ip := voidSt.ip + 1 }) ∧
    (⟨exBytes, 12, exStrings, rootTab, [enumSym]⟩ : RState).fSymbolTable = exSt.fSymbolTable :=
  ⟨claim_C9_symbolTable.1 3 true voidSt rfl,
   claim_C9_symbolTable.2.1 8 false exSt
     (some (SymTab.mk none true [enumSym] [("E", enumSym), ("E", enumSym)]))
     ⟨exBytes, 12, exStrings, rootTab, [enumSym]⟩ rfl⟩

/-- Witness for claim C10: constructing a session on a non-builtin table is
fatal, and the sample nested table decoded by `symbolTable` is builtin. -/
theorem claim_C10_witness :
    make (some plainTab) [0, 0] exStrings = none ∧
    (SymTab.mk none true [enumSym] [("E", enumSym), ("E", enumSym)]).isBuiltin = true :=
  ⟨claim_C10_builtin_root.2.1 plainTab [0, 0] exStrings rfl,
   claim_C10_builtin_root.2.2.2 8 false exSt
     (SymTab.mk none true [enumSym] [("E", enumSym), ("E", enumSym)])
     ⟨exBytes, 12, exStrings, rootTab, [enumSym]⟩ rfl⟩

/-- Witness for claim C4: with an empty registry, a back-reference to id 0 is
fatal; once id 0 holds the enum symbol, the same stream resolves to exactly
that symbol; and after registering id 0 and then id 1, id 0 still resolves to
the symbol registered under it. -/
theorem claim_C4_witness :
    symbol 5 ⟨[kSymbolRef_Command, 0, 0], 0, exStrings, rootTab, []⟩ = none ∧
    symbol 5 ⟨[kSymbolRef_Command, 0, 0], 0, exStrings, rootTab, [enumSym]⟩ =
      some (enumSym, ⟨[kSymbolRef_Command, 0, 0], 3, exStrings, rootTab, [enumSym]⟩) ∧
    ({ exSt with fSymbols := [enumSym, enumSym] } : RState).fSymbols.get? 0 = some enumSym :=
  ⟨claim_C4_symbol_registry.1 4 0 [] exStrings rootTab [] (by decide) (by decide),
   claim_C4_symbol_registry.2.1 4 0 [] exStrings rootTab [enumSym] enumSym (by decide) rfl,
   ((claim_C4_symbol_registry.2.2 exSt 0 enumSym { exSt with fSymbols := [enumSym] } rfl).2.2
      1 enumSym { exSt with fSymbols := [enumSym, enumSym] } rfl)⟩

end Rehydrator

end SkSL
